import Mathlib

/-!
Shallow embedding of the Data Validation & Analysis Core of
`src/analysis.py` (classes `FinancialInclusionAnalyzer` and `DataValidator`).

Tables are modelled as a list of column names plus a list of rows; a row is an
association list from column name to cell.  A cell is either missing (pandas
`NaN`/`NaT`/`None`), a string, a rational number (modelling floats exactly on
the rational inputs the analyses use), or a calendar date (modelling pandas
timestamps at day granularity, which is the granularity the source uses).
Selecting a column that is not among the frame's columns is a pandas
`KeyError`; operations that can hit one are modelled in `Except String`.
-/

set_option maxHeartbeats 1000000

deriving instance DecidableEq for Except

/-- A calendar date, modelling a pandas `Timestamp` at day granularity. -/
structure Date where
  year : Int
  month : Nat
  day : Nat
deriving DecidableEq, Repr

/-- One cell of the unified records table. -/
inductive Cell where
  | null
  | str (s : String)
  | num (q : ℚ)
  | date (d : Date)
deriving DecidableEq, Repr

/-- `pd.isna` on a cell. -/
def Cell.isna : Cell → Bool
  | .null => true
  | _ => false

/-- Pandas `series == somestring` comparison: `NaN` and non-strings compare unequal. -/
def Cell.eqStr : Cell → String → Bool
  | .str t, s => t == s
  | _, _ => false

/-- Numeric view of a cell (used for `value_numeric` and `year` columns). -/
def Cell.toQ : Cell → Option ℚ
  | .num q => some q
  | _ => none

/-- A row of a table: an association list from column name to cell. -/
abbrev Row : Type := List (String × Cell)

/-- Cell of a row in a given column (the frame-level column check is separate). -/
def Row.get (r : Row) (c : String) : Cell :=
  match List.lookup c r with
  | some v => v
  | none => Cell.null

/-- An in-memory table: pandas `DataFrame` with its column index made explicit. -/
structure DataFrame where
  cols : List String
  rows : List Row
deriving DecidableEq, Repr

/-- Column presence, `c in df.columns`. -/
def DataFrame.hasCol (df : DataFrame) (c : String) : Bool :=
  df.cols.contains c

/-- Column selection `df[c]`: `KeyError` when the column is absent. -/
def DataFrame.col (df : DataFrame) (c : String) : Except String (List Cell) :=
  if df.hasCol c then .ok (df.rows.map (fun r => Row.get r c))
  else .error ("KeyError: " ++ c)

/-- Guard used for operations that merely touch a column (`df[c]` for its side
condition): `KeyError` when the column is absent. -/
def DataFrame.requireCol (df : DataFrame) (c : String) : Except String Unit :=
  if df.hasCol c then .ok () else .error ("KeyError: " ++ c)

/-- Boolean-mask filtering `df[df[c] == s]`: `KeyError` when the column is absent. -/
def DataFrame.maskEqStr (df : DataFrame) (c s : String) : Except String DataFrame :=
  if df.hasCol c then
    .ok ⟨df.cols, df.rows.filter (fun r => Cell.eqStr (Row.get r c) s)⟩
  else .error ("KeyError: " ++ c)

/-- `list.isPre p l` holds when `p` is an initial run of `l`
(character-level model of Python `str.startswith`). -/
def listIsInit : List Char → List Char → Bool
  | [], _ => true
  | _ :: _, [] => false
  | p :: ps, c :: cs => p == c && listIsInit ps cs

/-- Python `s.startswith(pre)`. -/
def strStarts (s pre : String) : Bool :=
  listIsInit pre.data s.data

/-- Python `sub in s` substring test (used for `.str.contains`). -/
def strContainsSub (s sub : String) : Bool :=
  (List.range (s.data.length + 1)).any (fun i => listIsInit sub.data (s.data.drop i))

/-- Characters of a string up to (excluding) the first underscore. -/
def leadSegChars : List Char → List Char
  | [] => []
  | c :: rest => if c == '_' then [] else c :: leadSegChars rest

/-- Python `s.split('_')[0]`: the leading segment of an indicator code. -/
def leadSeg (s : String) : String :=
  ⟨leadSegChars s.data⟩

/-- Deduplication keeping first occurrences (model of Python `set`/pandas `unique`
construction order). -/
def dedupFirstAux {α : Type} [DecidableEq α] (seen : List α) : List α → List α
  | [] => []
  | a :: rest =>
    if seen.contains a then dedupFirstAux seen rest
    else a :: dedupFirstAux (a :: seen) rest

/-- Deduplication keeping first occurrences. -/
def dedupFirst {α : Type} [DecidableEq α] (l : List α) : List α :=
  dedupFirstAux [] l

/-- Missing-last comparison of optional sort keys (pandas sorts `NaN` last). -/
def keyLE (a b : Option ℚ) : Bool :=
  match a, b with
  | some x, some y => decide (x ≤ y)
  | none, some _ => false
  | _, none => true

/-- Stable insertion for `sortRowsBy`: a row is placed before every row whose
key is not strictly smaller, so rows with equal keys keep their input order. -/
def insertRowBy (key : Row → Option ℚ) (r : Row) : List Row → List Row
  | [] => [r]
  | x :: xs =>
    if keyLE (key x) (key r) && !(keyLE (key r) (key x)) then
      x :: insertRowBy key r xs
    else r :: x :: xs

/-- Stable sort of rows by an optional numeric key, missing keys last
(model of `DataFrame.sort_values`). -/
def sortRowsBy (key : Row → Option ℚ) : List Row → List Row
  | [] => []
  | r :: rest => insertRowBy key r (sortRowsBy key rest)

/-- Sort key for `sort_values('year')`. -/
def yearKey (r : Row) : Option ℚ :=
  Cell.toQ (Row.get r "year")

/-- Gregorian leap-year test. -/
def isLeap (y : Int) : Bool :=
  (y % 4 == 0 && y % 100 != 0) || y % 400 == 0

/-- Length of a month in the proleptic Gregorian calendar. -/
def daysInMonth (y : Int) (m : Nat) : Nat :=
  if m == 2 then (if isLeap y then 29 else 28)
  else if m == 4 || m == 6 || m == 9 || m == 11 then 30
  else 31

/-- Day number of a date (days since 1970-01-01, civil-calendar algorithm);
differences of day numbers model `(t1 - t2).days`. -/
def rataDie (d : Date) : Int :=
  let y : Int := if d.month ≤ 2 then d.year - 1 else d.year
  let era : Int := y.fdiv 400
  let yoe : Int := y - era * 400
  let mp : Int := ((d.month : Int) + 9) % 12
  let doy : Int := (153 * mp + 2).fdiv 5 + (d.day : Int) - 1
  let doe : Int := yoe * 365 + yoe.fdiv 4 - yoe.fdiv 100 + doy
  era * 146097 + doe - 719468

/-- `timestamp - pd.DateOffset(months=n)`: calendar-month subtraction with the
day of month clamped to the target month's length. -/
def subMonths (d : Date) (n : Nat) : Date :=
  let t : Int := d.year * 12 + ((d.month : Int) - 1) - (n : Int)
  let y : Int := t.fdiv 12
  let m : Nat := (t - y * 12).toNat + 1
  ⟨y, m, min d.day (daysInMonth y m)⟩

/-- Python `round(q, 1)` for the rationals produced by `days / 30` (whose
fractional parts are thirds, so no tie-breaking case arises). -/
def round1 (q : ℚ) : ℚ :=
  ((round (q * 10) : ℤ) : ℚ) / 10

/-! ## `DataValidator` constants (`src/analysis.py` lines 329-369) -/

/-- `DataValidator.REQUIRED_COLUMNS`. -/
def REQUIRED_COLUMNS : List String :=
  ["record_id", "record_type", "pillar", "indicator", "indicator_code",
   "value_type", "observation_date", "source_name", "confidence"]

/-- `DataValidator.VALID_RECORD_TYPES`. -/
def VALID_RECORD_TYPES : List String := ["observation", "event", "target"]

/-- `DataValidator.VALID_PILLARS`. -/
def VALID_PILLARS : List String :=
  ["ACCESS", "USAGE", "QUALITY", "AFFORDABILITY", "GENDER"]

/-- `DataValidator.VALID_VALUE_TYPES`. -/
def VALID_VALUE_TYPES : List String :=
  ["percentage", "absolute", "categorical", "ratio", "currency"]

/-- `DataValidator.VALID_CONFIDENCE_LEVELS`. -/
def VALID_CONFIDENCE_LEVELS : List String := ["high", "medium", "low"]

/-- Value of one entry of `DataValidator.PILLAR_RULES`. -/
structure PillarRule where
  valid_indicators : List String
  required_value_type : List String
  description : String
deriving DecidableEq

/-- The `ACCESS` entry of `DataValidator.PILLAR_RULES`. -/
def ruleACCESS : PillarRule :=
  ⟨["ACC_OWNERSHIP", "MOBILE_MONEY_ACC", "BANK_BRANCH_DENSITY"],
   ["percentage", "ratio"],
   "Account ownership and access to financial services"⟩

/-- The `USAGE` entry of `DataValidator.PILLAR_RULES`. -/
def ruleUSAGE : PillarRule :=
  ⟨["USG_P2P_COUNT", "USG_ATM_COUNT", "USG_TELEBIRR_VALUE", "USG_MPESA_USERS"],
   ["absolute", "currency", "percentage"],
   "Usage patterns and transaction volumes"⟩

/-- The `GENDER` entry of `DataValidator.PILLAR_RULES`. -/
def ruleGENDER : PillarRule :=
  ⟨["GENDER_GAP", "FEMALE_ACC_RATE", "MALE_ACC_RATE"],
   ["percentage"],
   "Gender-disaggregated metrics"⟩

/-- The `AFFORDABILITY` entry of `DataValidator.PILLAR_RULES`. -/
def ruleAFFORDABILITY : PillarRule :=
  ⟨["ACC_COST", "TRANSACTION_FEE"],
   ["currency", "percentage"],
   "Cost and affordability metrics"⟩

/-- `DataValidator.PILLAR_RULES`, in dict insertion order. -/
def PILLAR_RULES : List (String × PillarRule) :=
  [("ACCESS", ruleACCESS), ("USAGE", ruleUSAGE), ("GENDER", ruleGENDER),
   ("AFFORDABILITY", ruleAFFORDABILITY)]

/-- The error strings accumulated by the validators, with each Python
f-string modelled as a constructor carrying its interpolated data. -/
inductive VError where
  | missingColumns (cols : List String)
  | emptyFrame
  | invalidRecordTypes (vals : List Cell)
  | invalidPillars (vals : List Cell)
  | invalidValueTypes (vals : List Cell)
  | invalidConfidence (vals : List Cell)
  | pillarIndicators (pillar : String) (codes : List String)
  | pillarValueTypes (pillar : String) (bad : List Cell) (allowed : List String)
  | obsMissingPillar (n : Nat) (ids : List Cell)
  | obsMissingValue (n : Nat) (ids : List Cell)
  | eventsMissingCategory (n : Nat) (ids : List Cell)
  | eventsWithPillar (n : Nat) (ids : List Cell)
  | targetsMissingPillar (n : Nat) (ids : List Cell)
deriving DecidableEq, Repr

/-- The pillar an error message reports on, when it is a pillar-rule error. -/
def VError.pillarOf : VError → Option String
  | .pillarIndicators p _ => some p
  | .pillarValueTypes p _ _ => some p
  | _ => none

/-- `set(cells.dropna()) - set(valid)` for an enumeration check, packed into an
error when non-empty (`set` modelled as first-occurrence dedup). -/
def enumErr (cells : List Cell) (valid : List String) (mk : List Cell → VError) :
    List VError :=
  let bad := dedupFirst (cells.filter
    (fun c => !c.isna && !(valid.any (fun s => c == Cell.str s))))
  if bad.isEmpty then [] else [mk bad]

/-- `set(REQUIRED_COLUMNS) - set(df.columns)`, kept in `REQUIRED_COLUMNS` order. -/
def missingRequired (df : DataFrame) : List String :=
  REQUIRED_COLUMNS.filter (fun c => !(df.cols.contains c))

/-- Row predicate `df['record_type'] == 'observation'`. -/
def isObsRow (r : Row) : Bool := Cell.eqStr (Row.get r "record_type") "observation"

/-- Row predicate `df['record_type'] == 'event'`. -/
def isEventRow (r : Row) : Bool := Cell.eqStr (Row.get r "record_type") "event"

/-- Row predicate `df['record_type'] == 'target'`. -/
def isTargetRow (r : Row) : Bool := Cell.eqStr (Row.get r "record_type") "target"

/-- `DataValidator.validate_schema` (`src/analysis.py` lines 381-441).
Checks run in source order; a missing column consulted by a later check is a
pandas `KeyError`, modelled as `.error`. -/
def validateSchema (df : DataFrame) : Except String (Bool × List VError) :=
  let errs0 :=
    if (missingRequired df).isEmpty then []
    else [VError.missingColumns (missingRequired df)]
  if df.rows.isEmpty then .ok (false, errs0 ++ [VError.emptyFrame])
  else if ¬ df.hasCol "record_type" then .error "KeyError: record_type"
  else
    let errs1 := errs0 ++
      enumErr (df.rows.map (fun r => Row.get r "record_type"))
        VALID_RECORD_TYPES VError.invalidRecordTypes
    let obsRows := df.rows.filter isObsRow
    if obsRows.length > 0 ∧ ¬ df.hasCol "pillar" then .error "KeyError: pillar"
    else
      let errs2 :=
        if obsRows.length > 0 then
          errs1 ++ enumErr (obsRows.map (fun r => Row.get r "pillar"))
            VALID_PILLARS VError.invalidPillars
        else errs1
      if ¬ df.hasCol "value_type" then .error "KeyError: value_type"
      else
        let errs3 := errs2 ++
          enumErr (df.rows.map (fun r => Row.get r "value_type"))
            VALID_VALUE_TYPES VError.invalidValueTypes
        if ¬ df.hasCol "confidence" then .error "KeyError: confidence"
        else
          let errs4 := errs3 ++
            enumErr (df.rows.map (fun r => Row.get r "confidence"))
              VALID_CONFIDENCE_LEVELS VError.invalidConfidence
          .ok (errs4.isEmpty, errs4)

/-- `row.get('indicator_code', '')` inside the `validate_pillar_rules` loop:
the row's cell when the column exists, the empty string otherwise. -/
def codeCell (df : DataFrame) (r : Row) : Cell :=
  if df.hasCol "indicator_code" then Row.get r "indicator_code" else Cell.str ""

/-- The acceptance test of the `validate_pillar_rules` loop: the code starts
with the leading segment (text before the first underscore) of some registered
indicator of the pillar. -/
def acceptedCode (inds : List String) (s : String) : Bool :=
  inds.any (fun v => strStarts s (leadSeg v))

/-- The `invalid_indicators` loop of `validate_pillar_rules`: codes of the
pillar's observations that fail `acceptedCode`.  A missing cell (`NaN`) is
skipped; a non-null, non-string cell is Python
`AttributeError: startswith`, modelled as `.error`. -/
def invalidCodes (df : DataFrame) (inds : List String) :
    List Row → Except String (List String)
  | [] => .ok []
  | r :: rest =>
    match codeCell df r with
    | .null => invalidCodes df inds rest
    | .str s =>
      (invalidCodes df inds rest).map (fun l =>
        if acceptedCode inds s then l else s :: l)
    | _ => .error "AttributeError: startswith"

/-- One iteration of the `validate_pillar_rules` pillar loop
(`src/analysis.py` lines 456-486). -/
def pillarErrors (df : DataFrame) (obs : DataFrame) (p : String) (rule : PillarRule) :
    Except String (List VError) :=
  if ¬ obs.hasCol "pillar" then .error "KeyError: pillar"
  else
    let pobs := obs.rows.filter (fun r => Cell.eqStr (Row.get r "pillar") p)
    if pobs.isEmpty then .ok []
    else
      match invalidCodes df rule.valid_indicators pobs with
      | .error e => .error e
      | .ok bad =>
        let e1 :=
          if bad.isEmpty then []
          else [VError.pillarIndicators p (dedupFirst bad)]
        if ¬ df.hasCol "value_type" then .error "KeyError: value_type"
        else
          let badVt := dedupFirst ((pobs.map (fun r => Row.get r "value_type")).filter
            (fun c => !c.isna &&
              !(rule.required_value_type.any (fun s => c == Cell.str s))))
          let e2 :=
            if !badVt.isEmpty && !rule.required_value_type.isEmpty then
              [VError.pillarValueTypes p badVt rule.required_value_type]
            else []
          .ok (e1 ++ e2)

/-- `DataValidator.validate_pillar_rules` (`src/analysis.py` lines 443-504). -/
def validatePillarRules (df : DataFrame) : Except String (Bool × List VError) :=
  if ¬ df.hasCol "record_type" then .error "KeyError: record_type"
  else
    let obs : DataFrame := ⟨df.cols, df.rows.filter isObsRow⟩
    match pillarErrors df obs "ACCESS" ruleACCESS with
    | .error e => .error e
    | .ok e1 =>
      match pillarErrors df obs "USAGE" ruleUSAGE with
      | .error e => .error e
      | .ok e2 =>
        match pillarErrors df obs "GENDER" ruleGENDER with
        | .error e => .error e
        | .ok e3 =>
          match pillarErrors df obs "AFFORDABILITY" ruleAFFORDABILITY with
          | .error e => .error e
          | .ok e4 =>
            let errs := e1 ++ e2 ++ e3 ++ e4
            .ok (errs.isEmpty, errs)

/-- `DataValidator.validate_record_types` (`src/analysis.py` lines 506-581).
Each column touched by a check is guarded by `requireCol` at the point the
source first selects it; `value_numeric`, `value_text`, and `category` are not
in `REQUIRED_COLUMNS`, so those selections can raise `KeyError`. -/
def validateRecordTypes (df : DataFrame) : Except String (Bool × List VError) :=
  if ¬ df.hasCol "record_type" then .error "KeyError: record_type"
  else
    let obsRows := df.rows.filter isObsRow
    if ¬ df.hasCol "pillar" then .error "KeyError: pillar"
    else
      let noPillar := obsRows.filter (fun r => (Row.get r "pillar").isna)
      if noPillar.length > 0 ∧ ¬ df.hasCol "record_id" then .error "KeyError: record_id"
      else
        let e1 :=
          if noPillar.length > 0 then
            [VError.obsMissingPillar noPillar.length
              (noPillar.map (fun r => Row.get r "record_id"))]
          else []
        if ¬ df.hasCol "value_numeric" then .error "KeyError: value_numeric"
        else if ¬ df.hasCol "value_text" then .error "KeyError: value_text"
        else
          let noValue := obsRows.filter (fun r =>
            (Row.get r "value_numeric").isna && (Row.get r "value_text").isna)
          if noValue.length > 0 ∧ ¬ df.hasCol "record_id" then .error "KeyError: record_id"
          else
            let e2 :=
              if noValue.length > 0 then
                [VError.obsMissingValue noValue.length
                  (noValue.map (fun r => Row.get r "record_id"))]
              else []
            let evRows := df.rows.filter isEventRow
            if evRows.length > 0 ∧ ¬ df.hasCol "category" then .error "KeyError: category"
            else
              let noCat := evRows.filter (fun r => (Row.get r "category").isna)
              if evRows.length > 0 ∧ noCat.length > 0 ∧ ¬ df.hasCol "record_id" then
                .error "KeyError: record_id"
              else
                let e3 :=
                  if evRows.length > 0 ∧ noCat.length > 0 then
                    [VError.eventsMissingCategory noCat.length
                      (noCat.map (fun r => Row.get r "record_id"))]
                  else []
                let withP := evRows.filter (fun r => !(Row.get r "pillar").isna)
                if evRows.length > 0 ∧ withP.length > 0 ∧ ¬ df.hasCol "record_id" then
                  .error "KeyError: record_id"
                else
                  let e4 :=
                    if evRows.length > 0 ∧ withP.length > 0 then
                      [VError.eventsWithPillar withP.length
                        (withP.map (fun r => Row.get r "record_id"))]
                    else []
                  let tgRows := df.rows.filter isTargetRow
                  let noP := tgRows.filter (fun r => (Row.get r "pillar").isna)
                  if tgRows.length > 0 ∧ noP.length > 0 ∧ ¬ df.hasCol "record_id" then
                    .error "KeyError: record_id"
                  else
                    let e5 :=
                      if tgRows.length > 0 ∧ noP.length > 0 then
                        [VError.targetsMissingPillar noP.length
                          (noP.map (fun r => Row.get r "record_id"))]
                      else []
                    let errs := e1 ++ e2 ++ e3 ++ e4 ++ e5
                    .ok (errs.isEmpty, errs)

/-- The structured report built by `DataValidator.validate_all`
(`src/analysis.py` lines 583-632), minus the `validation_log` entry which is
carried separately by the stateful wrappers below. -/
structure ValidationReport where
  total_records : Nat
  all_valid : Bool
  schema_passed : Bool
  schema_errors : List VError
  pillar_passed : Bool
  pillar_errors : List VError
  record_type_passed : Bool
  record_type_errors : List VError
deriving DecidableEq

/-- `DataValidator.validate_all`: runs the three checks in order on the same
frame and combines them; an uncaught `KeyError` in any check propagates. -/
def validateAll (df : DataFrame) : Except String (Bool × ValidationReport) :=
  match validateSchema df with
  | .error e => .error e
  | .ok s =>
    match validatePillarRules df with
    | .error e => .error e
    | .ok p =>
      match validateRecordTypes df with
      | .error e => .error e
      | .ok t =>
        let allValid := s.1 && p.1 && t.1
        .ok (allValid, ⟨df.rows.length, allValid, s.1, s.2, p.1, p.2, t.1, t.2⟩)

/-! ## `FinancialInclusionAnalyzer` (`src/analysis.py` lines 19-319) -/

/-- One row of the frame returned by `calculate_growth_rate`
(columns `year`, `value_numeric`, `growth_rate`, `growth_pp`). -/
structure GrowthRow where
  year : Cell
  value_numeric : Option ℚ
  growth_rate : Option ℚ
  growth_pp : Option ℚ
deriving DecidableEq, Repr

/-- `pct_change() * 100` and `diff()` down a sorted series: each output row
pairs a value with its predecessor; the first row (no predecessor) and any row
whose own or preceding value is missing get missing growth fields. -/
def growthRows : Option ℚ → List (Cell × Option ℚ) → List GrowthRow
  | _, [] => []
  | prev, (y, v) :: rest =>
    { year := y
      value_numeric := v
      growth_rate :=
        match prev, v with
        | some p, some c => if p = 0 then none else some ((c - p) / p * 100)
        | _, _ => none
      growth_pp :=
        match prev, v with
        | some p, some c => some (c - p)
        | _, _ => none } :: growthRows v rest

/-- The rows of `observations` selected by
`observations[observations['indicator_code'] == code].sort_values('year')`. -/
def filteredSortedByYear (obs : DataFrame) (code : String) : List Row :=
  sortRowsBy yearKey
    (obs.rows.filter (fun r => Cell.eqStr (Row.get r "indicator_code") code))

/-- `FinancialInclusionAnalyzer.calculate_growth_rate`
(`src/analysis.py` lines 45-80).  An empty code returns an empty frame before
touching any column; a `KeyError` is caught and re-raised as `AnalysisError`. -/
def calculate_growth_rate (obs : DataFrame) (code : String) :
    Except String (List GrowthRow) :=
  if code = "" then .ok []
  else if ¬ obs.hasCol "indicator_code" then
    .error "AnalysisError: Missing column in data: indicator_code"
  else if ¬ obs.hasCol "year" then
    .error "AnalysisError: Missing column in data: year"
  else
    let data := filteredSortedByYear obs code
    if data.length < 2 then .ok []
    else if ¬ obs.hasCol "value_numeric" then
      .error "AnalysisError: Missing column in data: value_numeric"
    else
      .ok (growthRows none
        (data.map (fun r => (Row.get r "year", Cell.toQ (Row.get r "value_numeric")))))

/-- One entry of the list returned by `identify_trend_changes`. -/
structure Change where
  year : Cell
  type : String
  previous_growth : ℚ
  current_growth : ℚ
deriving DecidableEq, Repr

/-- Fallback row for positional indexing inside the trend loop (never the
selected row on the in-range indices the loop visits). -/
def GrowthRow.dflt : GrowthRow := ⟨Cell.null, none, none, none⟩

/-- The `for i in range(1, len(growth))` loop of `identify_trend_changes`
(`src/analysis.py` lines 103-115): index `i` is flagged as a `'slowdown'`
exactly when both adjacent `growth_pp` values are non-missing, the current one
is strictly below the threshold in absolute value, and the previous one is at
or above it. -/
def trendChanges (g : List GrowthRow) (t : ℚ) : List Change :=
  (List.range g.length).filterMap (fun i =>
    if i = 0 then none
    else
      match (g.getD i GrowthRow.dflt).growth_pp,
            (g.getD (i - 1) GrowthRow.dflt).growth_pp with
      | some c, some p =>
        if |c| < t ∧ t ≤ |p| then
          some ⟨(g.getD i GrowthRow.dflt).year, "slowdown", p, c⟩
        else none
      | _, _ => none)

/-- `FinancialInclusionAnalyzer.identify_trend_changes`
(`src/analysis.py` lines 82-121). -/
def identify_trend_changes (obs : DataFrame) (code : String) (t : ℚ) :
    Except String (List Change) :=
  match calculate_growth_rate obs code with
  | .error e => .error e
  | .ok g => if g.isEmpty then .ok [] else .ok (trendChanges g t)

/-- `.str.contains('GAP', na=False)` on a cell: substring test on strings,
`False` on missing and non-string cells. -/
def cellContainsGAP (c : Cell) : Bool :=
  match c with
  | .str s => strContainsSub s "GAP"
  | _ => false

/-- An empty `pd.DataFrame()` result. -/
def emptyFrame : DataFrame := ⟨[], []⟩

/-- `FinancialInclusionAnalyzer.analyze_gender_gap`
(`src/analysis.py` lines 123-159): missing `pillar` column degrades to an
empty frame; exceptions inside the `try` (such as the `KeyError` of
`sort_values('year')` or of the `indicator_code` selection) re-raise as
`AnalysisError`. -/
def analyze_gender_gap (obs : DataFrame) : Except String DataFrame :=
  if ¬ obs.hasCol "pillar" then .ok emptyFrame
  else if ¬ obs.hasCol "year" then
    .error "AnalysisError: KeyError: year"
  else
    let gd := obs.rows.filter (fun r => Cell.eqStr (Row.get r "pillar") "GENDER")
    if gd.isEmpty then .ok emptyFrame
    else if ¬ obs.hasCol "indicator_code" then
      .error "AnalysisError: KeyError: indicator_code"
    else
      let gap := (sortRowsBy yearKey gd).filter
        (fun r => cellContainsGAP (Row.get r "indicator_code"))
      if gap.isEmpty then .ok emptyFrame
      else
        let avail := (["year", "indicator_code", "value_numeric", "indicator"]).filter
          (fun c => obs.cols.contains c)
        .ok ⟨avail, gap.map (fun r => avail.map (fun c => (c, Row.get r c)))⟩

/-- One entry of the summary list built by `compare_pillars`. -/
structure PillarSummary where
  pillar : Cell
  num_rows : Nat
  indicators : Nat
  years_coverage : Nat
  first_year : Option ℚ
  last_year : Option ℚ
deriving DecidableEq

/-- `FinancialInclusionAnalyzer.compare_pillars`
(`src/analysis.py` lines 161-205): one summary per distinct non-missing pillar
value in order of first appearance; `nunique` counts distinct non-missing
values, and min/max are taken over the non-missing years. -/
def compare_pillars (obs : DataFrame) : Except String (List PillarSummary) :=
  if ¬ obs.hasCol "pillar" then
    .error "AnalysisError: pillar column not found in observations"
  else
    let uniq := (dedupFirst (obs.rows.map (fun r => Row.get r "pillar"))).filter
      (fun c => !c.isna)
    if uniq.isEmpty then .ok []
    else if ¬ obs.hasCol "year" then .error "AnalysisError: KeyError: year"
    else if ¬ obs.hasCol "indicator_code" then
      .error "AnalysisError: KeyError: indicator_code"
    else
      .ok (uniq.map (fun p =>
        let prows := obs.rows.filter (fun r => Row.get r "pillar" == p)
        let years := (prows.map (fun r => Row.get r "year")).filterMap Cell.toQ
        { pillar := p
          num_rows := prows.length
          indicators :=
            (dedupFirst ((prows.map (fun r => Row.get r "indicator_code")).filter
              (fun c => !c.isna))).length
          years_coverage :=
            (dedupFirst ((prows.map (fun r => Row.get r "year")).filter
              (fun c => !c.isna))).length
          first_year := years.min?
          last_year := years.max? }))

/-- One row of the frame returned by `find_event_correlations`. -/
structure Corr where
  event : Cell
  event_date : Date
  observation_date : Date
  lag_months : ℚ
  value : Cell
deriving DecidableEq, Repr

/-- The inner event loop of `find_event_correlations` for one observation
dated `od`: events whose date lies in the closed window
`[od - lag_months, od]`, each yielding the event label (`'Unknown'` when the
events frame has no `indicator` column), both dates, the day-difference
divided by 30 rounded to one decimal, and the observation's value. -/
def obsCorrs (events : DataFrame) (od : Date) (v : Cell) (lag : Nat) : List Corr :=
  let ws := subMonths od lag
  events.rows.filterMap (fun e =>
    match Row.get e "event_date" with
    | .date ed =>
      if rataDie ws ≤ rataDie ed ∧ rataDie ed ≤ rataDie od then
        some
          ⟨(if events.hasCol "indicator" then Row.get e "indicator"
            else Cell.str "Unknown"),
           ed, od, round1 (((rataDie od - rataDie ed : Int) : ℚ) / 30), v⟩
      else none
    | _ => none)

/-- The outer observation loop of `find_event_correlations`: an observation
with a missing date is skipped; one whose date is not a timestamp, or whose
row lacks `value_numeric`, raises inside the per-observation `try` and is
skipped with a warning. -/
def rowCorrs (obs events : DataFrame) (lag : Nat) (r : Row) : List Corr :=
  match Row.get r "observation_date" with
  | .date od =>
    if obs.hasCol "value_numeric" then
      obsCorrs events od (Row.get r "value_numeric") lag
    else []
  | _ => []

/-- Sort key for `sort_values('observation_date')`. -/
def obsDateKey (r : Row) : Option ℚ :=
  match Row.get r "observation_date" with
  | .date d => some ((rataDie d : Int) : ℚ)
  | _ => none

/-- `FinancialInclusionAnalyzer.find_event_correlations`
(`src/analysis.py` lines 207-279).  `events = none` models an analyzer built
without an events frame. -/
def find_event_correlations (obs : DataFrame) (events : Option DataFrame)
    (code : String) (lag : Nat) : Except String (List Corr) :=
  match events with
  | none => .ok []
  | some ev =>
    if ev.rows.isEmpty then .ok []
    else if ¬ obs.hasCol "observation_date" then .ok []
    else if ¬ ev.hasCol "event_date" then .ok []
    else if ¬ obs.hasCol "indicator_code" then
      .error "AnalysisError: KeyError: indicator_code"
    else
      let data := sortRowsBy obsDateKey
        (obs.rows.filter (fun r => Cell.eqStr (Row.get r "indicator_code") code))
      if data.isEmpty then .ok []
      else .ok (data.flatMap (rowCorrs obs ev lag))

/-! ## Stateful method wrappers

The Python objects carry mutable state: `DataValidator` appends an entry to
`self.validation_log` on every check, and `FinancialInclusionAnalyzer` holds
the `observations`/`events` frames.  The wrappers below pass that state
explicitly and return its value after the call, so that what the source
mutates (the log) and what it leaves untouched (the input frames) is visible
in the result type. -/

/-- One entry of `DataValidator.validation_log`. -/
structure LogEntry where
  check : String
  passed : Bool
  errors : List VError
deriving DecidableEq

/-- `DataValidator.validate_schema` as a method: appends to the validation
log and returns the frame as left by the call.  The empty-frame branch
returns before the `validation_log.append` is reached, so no entry is logged
for an empty table; no entry is logged either when an exception escapes. -/
def validate_schema_m (log : List LogEntry) (df : DataFrame) :
    Except String ((Bool × List VError) × List LogEntry × DataFrame) :=
  (validateSchema df).map (fun r =>
    (r, if df.rows.isEmpty then log else log ++ [⟨"schema", r.1, r.2⟩], df))

/-- `DataValidator.validate_pillar_rules` as a method. -/
def validate_pillar_rules_m (log : List LogEntry) (df : DataFrame) :
    Except String ((Bool × List VError) × List LogEntry × DataFrame) :=
  (validatePillarRules df).map (fun r => (r, log ++ [⟨"pillar_rules", r.1, r.2⟩], df))

/-- `DataValidator.validate_record_types` as a method. -/
def validate_record_types_m (log : List LogEntry) (df : DataFrame) :
    Except String ((Bool × List VError) × List LogEntry × DataFrame) :=
  (validateRecordTypes df).map (fun r => (r, log ++ [⟨"record_types", r.1, r.2⟩], df))

/-- `DataValidator.validate_all` as a method: the three sub-checks run on the
same frame, each appending its log entry — except the schema check on an
empty frame, whose early return skips its append. -/
def validate_all_m (log : List LogEntry) (df : DataFrame) :
    Except String ((Bool × ValidationReport) × List LogEntry × DataFrame) :=
  match validate_schema_m log df with
  | .error e => .error e
  | .ok (s, log1, df1) =>
    match validate_pillar_rules_m log1 df1 with
    | .error e => .error e
    | .ok (p, log2, df2) =>
      match validate_record_types_m log2 df2 with
      | .error e => .error e
      | .ok (t, log3, df3) =>
        let allValid := s.1 && p.1 && t.1
        .ok ((allValid,
          ⟨df3.rows.length, allValid, s.1, s.2, p.1, p.2, t.1, t.2⟩), log3, df3)

/-- The state of a constructed `FinancialInclusionAnalyzer`. -/
structure Analyzer where
  obs : DataFrame
  events : Option DataFrame

/-- `calculate_growth_rate` as a method on the analyzer state. -/
def Analyzer.growth_rate_m (a : Analyzer) (code : String) :
    Except String (List GrowthRow) × Analyzer :=
  (calculate_growth_rate a.obs code, a)

/-- `identify_trend_changes` as a method on the analyzer state. -/
def Analyzer.trend_changes_m (a : Analyzer) (code : String) (t : ℚ) :
    Except String (List Change) × Analyzer :=
  (identify_trend_changes a.obs code t, a)

/-- `analyze_gender_gap` as a method on the analyzer state. -/
def Analyzer.gender_gap_m (a : Analyzer) :
    Except String DataFrame × Analyzer :=
  (analyze_gender_gap a.obs, a)

/-- `compare_pillars` as a method on the analyzer state. -/
def Analyzer.compare_pillars_m (a : Analyzer) :
    Except String (List PillarSummary) × Analyzer :=
  (compare_pillars a.obs, a)

/-- `find_event_correlations` as a method on the analyzer state. -/
def Analyzer.event_correlations_m (a : Analyzer) (code : String) (lag : Nat) :
    Except String (List Corr) × Analyzer :=
  (find_event_correlations a.obs a.events code lag, a)

/-! ## Concrete frames used by the claim theorems -/

/-- Observation (2014, 20.0) of indicator `ACC`. -/
def rowC1a : Row :=
  [("indicator_code", Cell.str "ACC"), ("year", Cell.num 2014),
   ("value_numeric", Cell.num 20)]

/-- Observation (2017, 22.0) of indicator `ACC`. -/
def rowC1b : Row :=
  [("indicator_code", Cell.str "ACC"), ("year", Cell.num 2017),
   ("value_numeric", Cell.num 22)]

/-- A two-point observations frame whose `ACC` series, sorted by year, is
`[(2014, 20.0), (2017, 22.0)]`. -/
def dfC1 : DataFrame :=
  ⟨["indicator_code", "year", "value_numeric"], [rowC1b, rowC1a]⟩

/-- Evaluation rule for `Row.get` on a cons cell. -/
theorem Row.get_cons (k : String) (v : Cell) (r : Row) (c : String) :
    Row.get ((k, v) :: r) c = if c == k then v else Row.get r c := by
  cases h : c == k <;> simp [Row.get, List.lookup_cons, h]

/-- Claim C1 (counterexample): on the two-point series
`[(2014, 20.0), (2017, 22.0)]` the frame returned by `calculate_growth_rate`
has two rows — one per input observation, the first with missing growth
fields — not "exactly one row" as claimed. -/
theorem calculate_growth_rate_two_point_counterexample :
    filteredSortedByYear dfC1 "ACC" = [rowC1a, rowC1b] ∧
    Row.get rowC1a "year" = Cell.num 2014 ∧
    Row.get rowC1a "value_numeric" = Cell.num 20 ∧
    Row.get rowC1b "year" = Cell.num 2017 ∧
    Row.get rowC1b "value_numeric" = Cell.num 22 ∧
    calculate_growth_rate dfC1 "ACC" =
      .ok [⟨Cell.num 2014, some 20, none, none⟩,
           ⟨Cell.num 2017, some 22, some 10, some 2⟩] ∧
    ([(⟨Cell.num 2014, some 20, none, none⟩ : GrowthRow),
      ⟨Cell.num 2017, some 22, some 10, some 2⟩]).length ≠ 1 := by
  refine ⟨by decide, by decide, by decide, by decide, by decide, ?_, by decide⟩
  have hs : filteredSortedByYear dfC1 "ACC" = [rowC1a, rowC1b] := by decide
  simp only [calculate_growth_rate, hs]
  simp [dfC1, DataFrame.hasCol, growthRows, rowC1a, rowC1b, Row.get_cons, Cell.toQ]
  norm_num

/-- Claim C1 (amended): for every indicator code whose observations, sorted
ascending by year, form exactly the two-point series
`[(2014, 20.0), (2017, 22.0)]`, `calculate_growth_rate` returns one row per
observation: the first row (year 2014) with missing growth fields, and the
second row with year 2017, absolute change `growth_pp = +2.0` and percentage
change `growth_rate = +10.0`, computed as `(v[t]-v[t-1])/v[t-1]*100` and
`v[t]-v[t-1]` per consecutive pair. -/
theorem calculate_growth_rate_two_point (obs : DataFrame) (code : String)
    (hcode : code ≠ "")
    (hic : obs.hasCol "indicator_code") (hy : obs.hasCol "year")
    (hv : obs.hasCol "value_numeric")
    (r1 r2 : Row)
    (hsort : filteredSortedByYear obs code = [r1, r2])
    (hy1 : Row.get r1 "year" = Cell.num 2014)
    (hv1 : Row.get r1 "value_numeric" = Cell.num 20)
    (hy2 : Row.get r2 "year" = Cell.num 2017)
    (hv2 : Row.get r2 "value_numeric" = Cell.num 22) :
    calculate_growth_rate obs code =
      .ok [⟨Cell.num 2014, some 20, none, none⟩,
           ⟨Cell.num 2017, some 22, some 10, some 2⟩] := by
  simp only [calculate_growth_rate, hic, hy, hv, hsort, hcode]
  simp [growthRows, hy1, hv1, hy2, hv2, Cell.toQ]
  norm_num

/-- Claim C1 (witness for the amended theorem) at the concrete two-point frame. -/
theorem calculate_growth_rate_two_point_witness :
    calculate_growth_rate dfC1 "ACC" =
      .ok [⟨Cell.num 2014, some 20, none, none⟩,
           ⟨Cell.num 2017, some 22, some 10, some 2⟩] :=
  calculate_growth_rate_two_point dfC1 "ACC" (by decide) (by decide) (by decide)
    (by decide) rowC1a rowC1b (by decide) (by decide) (by decide) (by decide)
    (by decide)

/-- A frame with no rows and no columns. -/
def dfNoColsNoRows : DataFrame := ⟨[], []⟩

/-- A frame with all required columns and no rows. -/
def dfAllColsNoRows : DataFrame := ⟨REQUIRED_COLUMNS, []⟩

/-- Claim C6 (counterexample): on an empty table that is also missing required
columns, `validate_schema` returns two errors (the missing-columns error and
the empty-table error), not "a single error". -/
theorem validate_schema_empty_counterexample :
    dfNoColsNoRows.rows = [] ∧
    validateSchema dfNoColsNoRows =
      .ok (false, [VError.missingColumns REQUIRED_COLUMNS, VError.emptyFrame]) ∧
    ([VError.missingColumns REQUIRED_COLUMNS, VError.emptyFrame]).length ≠ 1 := by
  decide

/-- Claim C6 (amended): for every empty table (zero rows), `validate_schema`
immediately returns `is_valid = False`, skipping the remaining enumeration
checks; the error list is exactly the empty-table error, preceded by the
missing-columns error when required columns are also missing (so it is a
single error exactly when all required columns are present). -/
theorem validate_schema_empty (df : DataFrame) (h : df.rows = []) :
    validateSchema df =
      .ok (false,
        (if (missingRequired df).isEmpty then []
         else [VError.missingColumns (missingRequired df)]) ++ [VError.emptyFrame]) := by
  simp [validateSchema, h]

/-- Claim C6 (witness): on an empty table with all required columns present,
the amended theorem gives `is_valid = False` with the single empty-table error. -/
theorem validate_schema_empty_witness :
    validateSchema dfAllColsNoRows = .ok (false, [VError.emptyFrame]) := by
  have h := validate_schema_empty dfAllColsNoRows rfl
  rw [h]
  decide

/-- A frame holding a single observation of indicator `ACC`. -/
def dfOnePoint : DataFrame :=
  ⟨["indicator_code", "year", "value_numeric"], [rowC1a]⟩

/-- Claim C7: for every observations frame with the analyzer's required
columns, `calculate_growth_rate` returns an empty result, without raising, on
the empty indicator code, and likewise whenever fewer than two data points
match the code. -/
theorem calculate_growth_rate_sparse (obs : DataFrame) (code : String)
    (hic : obs.hasCol "indicator_code") (hy : obs.hasCol "year") :
    (code = "" → calculate_growth_rate obs code = .ok []) ∧
    ((filteredSortedByYear obs code).length < 2 →
      calculate_growth_rate obs code = .ok []) := by
  constructor
  · intro h
    simp [calculate_growth_rate, h]
  · intro h
    by_cases hc : code = ""
    · simp [calculate_growth_rate, hc]
    · simp [calculate_growth_rate, hc, hic, hy, h]

/-- Claim C7 (witness): a single-point series and the empty code both return
an empty result on a concrete frame. -/
theorem calculate_growth_rate_sparse_witness :
    calculate_growth_rate dfOnePoint "ACC" = .ok [] ∧
    calculate_growth_rate dfOnePoint "" = .ok [] :=
  ⟨(calculate_growth_rate_sparse dfOnePoint "ACC" (by decide) (by decide)).2
      (by decide),
   (calculate_growth_rate_sparse dfOnePoint "" (by decide) (by decide)).1 rfl⟩

/-- A non-empty frame missing every required column. -/
def dfC4 : DataFrame := ⟨["a"], [[("a", Cell.str "x")]]⟩

/-- Claim C4 (counterexample): a non-empty table missing required columns —
here missing all of them — makes `validate_schema` raise `KeyError` at the
`record_type` enumeration check instead of returning `is_valid = False`. -/
theorem validate_schema_missing_columns_counterexample :
    (missingRequired dfC4).isEmpty = false ∧
    dfC4.rows ≠ [] ∧
    validateSchema dfC4 = .error "KeyError: record_type" := by
  decide

/-- Membership description of `missingRequired`: it lists exactly the required
columns the frame lacks. -/
theorem missingRequired_spec (df : DataFrame) (c : String) :
    c ∈ missingRequired df ↔ c ∈ REQUIRED_COLUMNS ∧ df.hasCol c = false := by
  simp [missingRequired, List.mem_filter, DataFrame.hasCol]

/-- Claim C4 (amended): for every table missing at least one required column,
`validate_schema` returns `is_valid = False` with an error naming exactly the
missing required columns — provided the table is empty, or the columns
consulted by the later enumeration checks (`record_type`, `value_type`,
`confidence`, and `pillar` when an observation row exists) are all present;
when such a consulted column is itself missing from a non-empty table, the
call raises `KeyError` instead. -/
theorem validate_schema_missing_columns (df : DataFrame)
    (hmiss : missingRequired df ≠ [])
    (hok : df.rows = [] ∨
      (df.hasCol "record_type" ∧ df.hasCol "value_type" ∧ df.hasCol "confidence" ∧
        ((df.rows.filter isObsRow).length > 0 → df.hasCol "pillar"))) :
    ∃ errs, validateSchema df = .ok (false, errs) ∧
      VError.missingColumns (missingRequired df) ∈ errs := by
  have hne : (missingRequired df).isEmpty = false := by
    simpa [List.isEmpty_iff] using hmiss
  by_cases hrows : df.rows.isEmpty
  · refine ⟨[VError.missingColumns (missingRequired df), VError.emptyFrame], ?_, by simp⟩
    simp [validateSchema, hrows, hne]
  · have hrows' : df.rows.isEmpty = false := by simpa using hrows
    have hcols : df.hasCol "record_type" ∧ df.hasCol "value_type" ∧
        df.hasCol "confidence" ∧
        ((df.rows.filter isObsRow).length > 0 → df.hasCol "pillar") := by
      rcases hok with h | h
      · exact absurd h (by simpa [List.isEmpty_iff] using hrows)
      · exact h
    obtain ⟨hrt, hvt, hcf, hpl⟩ := hcols
    by_cases ho : (df.rows.filter isObsRow).length > 0
    · refine ⟨[VError.missingColumns (missingRequired df)] ++
        enumErr (df.rows.map (fun r => Row.get r "record_type"))
          VALID_RECORD_TYPES VError.invalidRecordTypes ++
        enumErr ((df.rows.filter isObsRow).map (fun r => Row.get r "pillar"))
          VALID_PILLARS VError.invalidPillars ++
        enumErr (df.rows.map (fun r => Row.get r "value_type"))
          VALID_VALUE_TYPES VError.invalidValueTypes ++
        enumErr (df.rows.map (fun r => Row.get r "confidence"))
          VALID_CONFIDENCE_LEVELS VError.invalidConfidence, ?_, by simp⟩
      simp [validateSchema, hrows', hne, hrt, hvt, hcf, ho, hpl ho]
    · refine ⟨[VError.missingColumns (missingRequired df)] ++
        enumErr (df.rows.map (fun r => Row.get r "record_type"))
          VALID_RECORD_TYPES VError.invalidRecordTypes ++
        enumErr (df.rows.map (fun r => Row.get r "value_type"))
          VALID_VALUE_TYPES VError.invalidValueTypes ++
        enumErr (df.rows.map (fun r => Row.get r "confidence"))
          VALID_CONFIDENCE_LEVELS VError.invalidConfidence, ?_, by simp⟩
      simp [validateSchema, hrows', hne, hrt, hvt, hcf, ho]

/-- A non-empty frame missing only `record_id`, with the columns consulted by
the later schema checks all present. -/
def dfC4w : DataFrame :=
  ⟨["record_type", "pillar", "indicator", "indicator_code", "value_type",
    "observation_date", "source_name", "confidence"],
   [[("record_type", Cell.str "observation"), ("pillar", Cell.str "ACCESS"),
     ("value_type", Cell.str "percentage"), ("confidence", Cell.str "high")]]⟩

/-- Claim C4 (witness for the amended theorem): a non-empty frame missing only
`record_id` gets `is_valid = False` with the error naming exactly that column. -/
theorem validate_schema_missing_columns_witness :
    missingRequired dfC4w = ["record_id"] ∧
    (∃ errs, validateSchema dfC4w = .ok (false, errs) ∧
      VError.missingColumns ["record_id"] ∈ errs) := by
  have h : missingRequired dfC4w = ["record_id"] := by decide
  refine ⟨h, ?_⟩
  have hmain := validate_schema_missing_columns dfC4w (by decide) (Or.inr (by decide))
  rwa [h] at hmain

/-- Claim C10: for every non-empty table with all nine required schema
columns, if the `value_text` column is absent while the table has at least one
observation, or the `category` column is absent while the table has at least
one event, then `validate_record_types` raises (a pandas `KeyError`) rather
than returning an `(is_valid, errors)` pair. -/
theorem validate_record_types_missing_col (df : DataFrame)
    (hreq : ∀ c ∈ REQUIRED_COLUMNS, df.hasCol c)
    (_hrows : df.rows ≠ [])
    (hcase : (df.hasCol "value_text" = false ∧ (df.rows.filter isObsRow).length > 0) ∨
             (df.hasCol "category" = false ∧ (df.rows.filter isEventRow).length > 0)) :
    ∃ msg, validateRecordTypes df = .error msg := by
  have hrt := hreq "record_type" (by simp [REQUIRED_COLUMNS])
  have hpil := hreq "pillar" (by simp [REQUIRED_COLUMNS])
  have hrid := hreq "record_id" (by simp [REQUIRED_COLUMNS])
  by_cases hvn : df.hasCol "value_numeric"
  · by_cases hvt : df.hasCol "value_text"
    · rcases hcase with ⟨hA, _⟩ | ⟨hB, hev⟩
      · rw [hvt] at hA
        cases hA
      · exact ⟨"KeyError: category",
          by simp [validateRecordTypes, hrt, hpil, hrid, hvn, hvt, hB, hev]⟩
    · exact ⟨"KeyError: value_text",
        by simp [validateRecordTypes, hrt, hpil, hrid, hvn, hvt]⟩
  · exact ⟨"KeyError: value_numeric",
      by simp [validateRecordTypes, hrt, hpil, hrid, hvn]⟩

/-- A non-empty frame with exactly the required columns (hence no
`value_text`) holding one observation. -/
def dfC10 : DataFrame :=
  ⟨REQUIRED_COLUMNS,
   [[("record_id", Cell.str "R1"), ("record_type", Cell.str "observation"),
     ("pillar", Cell.str "ACCESS"), ("indicator", Cell.str "x"),
     ("indicator_code", Cell.str "ACC_OWNERSHIP"),
     ("value_type", Cell.str "percentage"), ("observation_date", Cell.null),
     ("source_name", Cell.str "s"), ("confidence", Cell.str "high")]]⟩

/-- Claim C10 (witness): on a concrete frame with the required columns, one
observation, and no `value_text` column, `validate_record_types` raises. -/
theorem validate_record_types_missing_col_witness :
    (∀ c ∈ REQUIRED_COLUMNS, dfC10.hasCol c) ∧
    dfC10.hasCol "value_text" = false ∧
    (∃ msg, validateRecordTypes dfC10 = .error msg) :=
  ⟨by decide, by decide,
   validate_record_types_missing_col dfC10 (by decide) (by decide)
     (Or.inl ⟨by decide, by decide⟩)⟩

/-- Observation row of indicator `C` with a given year and value. -/
def trRow (y v : ℚ) : Row :=
  [("indicator_code", Cell.str "C"), ("year", Cell.num y),
   ("value_numeric", Cell.num v)]

/-- A four-point series for indicator `C` whose consecutive absolute changes
are `[+5.0, +4.5, +0.3]` (values 10, 15, 19.5, 19.8). -/
def dfC2 : DataFrame :=
  ⟨["indicator_code", "year", "value_numeric"],
   [trRow 2014 10, trRow 2015 15, trRow 2016 (Rat.mk' 39 2), trRow 2017 (Rat.mk' 99 5)]⟩

/-- Claim C2: on every growth series and threshold, the trend-change walk of
`identify_trend_changes` flags position `i` exactly when both adjacent
`growth_pp` values exist, the current one is strictly below the threshold in
absolute value and the previous one is at or above it; every flagged entry is
a `'slowdown'` carrying the year and the two compared growth values, and the
first position is never flagged.  On the series with consecutive absolute
changes `[+5.0, +4.5, +0.3]` and threshold `0.5`, exactly the transition into
the third change point (year 2017) is flagged. -/
theorem identify_trend_changes_spec :
    (∀ (g : List GrowthRow) (t : ℚ) (c : Change),
      c ∈ trendChanges g t ↔
        ∃ i, i < g.length ∧ 0 < i ∧
          ∃ p q, (g.getD (i - 1) GrowthRow.dflt).growth_pp = some p ∧
            (g.getD i GrowthRow.dflt).growth_pp = some q ∧
            |q| < t ∧ t ≤ |p| ∧
            c = ⟨(g.getD i GrowthRow.dflt).year, "slowdown", p, q⟩) ∧
    identify_trend_changes dfC2 "C" (1 / 2) =
      .ok [⟨Cell.num 2017, "slowdown", Rat.mk' 9 2, Rat.mk' 3 10⟩] := by
  constructor
  · intro g t c
    simp only [trendChanges, List.mem_filterMap, List.mem_range]
    constructor
    · rintro ⟨i, hi, hf⟩
      by_cases h0 : i = 0
      · subst h0
        simp at hf
      · rw [if_neg h0] at hf
        split at hf
        · rename_i q p hq hp
          split at hf
          · rename_i hcond
            refine ⟨i, hi, Nat.pos_of_ne_zero h0, p, q, hp, hq, hcond.1, hcond.2, ?_⟩
            exact (Option.some_inj.mp hf).symm
          · cases hf
        · cases hf
    · rintro ⟨i, hi, h0, p, q, hp, hq, h1, h2, rfl⟩
      refine ⟨i, hi, ?_⟩
      rw [if_neg (Nat.pos_iff_ne_zero.mp h0), hq, hp]
      simp [h1, h2]
  · have hb392 : (Rat.mk' 39 2 : ℚ) = 39 / 2 := by
      rw [← Rat.num_div_den (Rat.mk' 39 2)]
      norm_num
    have hb995 : (Rat.mk' 99 5 : ℚ) = 99 / 5 := by
      rw [← Rat.num_div_den (Rat.mk' 99 5)]
      norm_num
    have hb92 : (Rat.mk' 9 2 : ℚ) = 9 / 2 := by
      rw [← Rat.num_div_den (Rat.mk' 9 2)]
      norm_num
    have hb310 : (Rat.mk' 3 10 : ℚ) = 3 / 10 := by
      rw [← Rat.num_div_den (Rat.mk' 3 10)]
      norm_num
    have hb2013 : (Rat.mk' 20 13 : ℚ) = 20 / 13 := by
      rw [← Rat.num_div_den (Rat.mk' 20 13)]
      norm_num
    have hs : filteredSortedByYear dfC2 "C" =
        [trRow 2014 10, trRow 2015 15, trRow 2016 (Rat.mk' 39 2),
         trRow 2017 (Rat.mk' 99 5)] := by
      decide
    have hg : calculate_growth_rate dfC2 "C" =
        .ok [⟨Cell.num 2014, some 10, none, none⟩,
             ⟨Cell.num 2015, some 15, some 50, some 5⟩,
             ⟨Cell.num 2016, some (Rat.mk' 39 2), some 30, some (Rat.mk' 9 2)⟩,
             ⟨Cell.num 2017, some (Rat.mk' 99 5), some (Rat.mk' 20 13),
              some (Rat.mk' 3 10)⟩] := by
      simp only [calculate_growth_rate, hs]
      simp [dfC2, DataFrame.hasCol, growthRows, trRow, Row.get_cons, Cell.toQ,
        hb392, hb995, hb92, hb310, hb2013]
      norm_num
    have habs1 : |(5 : ℚ)| = 5 := abs_of_nonneg (by norm_num)
    have habs2 : |(9 / 2 : ℚ)| = 9 / 2 := abs_of_nonneg (by norm_num)
    have habs3 : |(3 / 10 : ℚ)| = 3 / 10 := abs_of_nonneg (by norm_num)
    have hrange : List.range 4 = [0, 1, 2, 3] := rfl
    simp only [identify_trend_changes, hg]
    norm_num [trendChanges, hrange, GrowthRow.dflt, hb92, hb310, habs1, habs2, habs3]
    norm_num [List.filterMap_cons, habs2, habs3]

/-- Claim C2 (witness): the characterization applied at a concrete two-row
growth series flags the second row. -/
theorem identify_trend_changes_spec_witness :
    (⟨Cell.num 2017, "slowdown", Rat.mk' 9 2, Rat.mk' 3 10⟩ : Change) ∈
      trendChanges
        [⟨Cell.num 2016, some (Rat.mk' 39 2), some 30, some (Rat.mk' 9 2)⟩,
         ⟨Cell.num 2017, some (Rat.mk' 99 5), some (Rat.mk' 20 13),
          some (Rat.mk' 3 10)⟩]
        (1 / 2) := by
  refine (identify_trend_changes_spec.1 _ _ _).mpr
    ⟨1, by norm_num, by norm_num, Rat.mk' 9 2, Rat.mk' 3 10, rfl, rfl, ?_, ?_, rfl⟩
  · have hb310 : (Rat.mk' 3 10 : ℚ) = 3 / 10 := by
      rw [← Rat.num_div_den (Rat.mk' 3 10)]
      norm_num
    rw [hb310, abs_of_nonneg (by norm_num : (0 : ℚ) ≤ 3 / 10)]
    norm_num
  · have hb92 : (Rat.mk' 9 2 : ℚ) = 9 / 2 := by
      rw [← Rat.num_div_den (Rat.mk' 9 2)]
      norm_num
    rw [hb92, abs_of_nonneg (by norm_num : (0 : ℚ) ≤ 9 / 2)]
    norm_num

/-- Membership in the seen-set accumulator of `dedupFirst`. -/
theorem mem_dedupFirstAux {α : Type} [DecidableEq α] (l : List α) :
    ∀ (seen : List α) (a : α),
      a ∈ dedupFirstAux seen l ↔ a ∈ l ∧ ¬ a ∈ seen := by
  induction l with
  | nil =>
    intro seen a
    simp [dedupFirstAux]
  | cons b rest ih =>
    intro seen a
    by_cases hb : seen.contains b
    · have hbmem : b ∈ seen := by simpa using hb
      rw [dedupFirstAux, if_pos hb, ih]
      simp only [List.mem_cons]
      constructor
      · rintro ⟨h1, h2⟩
        exact ⟨Or.inr h1, h2⟩
      · rintro ⟨h1 | h1, h2⟩
        · exact absurd (h1 ▸ hbmem) h2
        · exact ⟨h1, h2⟩
    · have hbmem : ¬ b ∈ seen := by simpa using hb
      rw [dedupFirstAux, if_neg hb]
      simp only [List.mem_cons, ih]
      by_cases hab : a = b
      · subst hab
        tauto
      · tauto

/-- `dedupFirst` keeps exactly the members of its input. -/
theorem mem_dedupFirst {α : Type} [DecidableEq α] (l : List α) (a : α) :
    a ∈ dedupFirst l ↔ a ∈ l := by
  simp [dedupFirst, mem_dedupFirstAux]

/-- Membership description of a successful `invalidCodes` run: the collected
codes are exactly the string-valued indicator codes of the scanned rows that
fail the prefix-family acceptance test. -/
theorem invalidCodes_ok_mem (df : DataFrame) (inds : List String) :
    ∀ (rows : List Row) (bad : List String),
      invalidCodes df inds rows = .ok bad →
      ∀ s, s ∈ bad ↔
        ∃ r ∈ rows, codeCell df r = Cell.str s ∧ acceptedCode inds s = false := by
  intro rows
  induction rows with
  | nil =>
    intro bad h s
    rw [invalidCodes] at h
    cases h
    simp
  | cons r rest ih =>
    intro bad h s
    rw [invalidCodes] at h
    cases hcell : codeCell df r <;> rw [hcell] at h
    · -- null: skipped
      rw [ih bad h s]
      constructor
      · rintro ⟨r0, hr0, hc0⟩
        exact ⟨r0, List.mem_cons_of_mem r hr0, hc0⟩
      · rintro ⟨r0, hr0, hc0, hc1⟩
        rcases List.mem_cons.mp hr0 with rfl | hr0
        · rw [hcell] at hc0
          cases hc0
        · exact ⟨r0, hr0, hc0, hc1⟩
    · -- string cell
      rename_i s0
      cases hrest : invalidCodes df inds rest <;> rw [hrest] at h
      · cases h
      · rename_i bad0
        simp only [Except.map] at h
        injection h with h
        by_cases hacc : acceptedCode inds s0
        · rw [if_pos hacc] at h
          subst h
          rw [ih bad0 hrest s]
          constructor
          · rintro ⟨r0, hr0, hc0⟩
            exact ⟨r0, List.mem_cons_of_mem r hr0, hc0⟩
          · rintro ⟨r0, hr0, hc0, hc1⟩
            rcases List.mem_cons.mp hr0 with rfl | hr0
            · rw [hcell] at hc0
              cases hc0
              rw [hacc] at hc1
              cases hc1
            · exact ⟨r0, hr0, hc0, hc1⟩
        · rw [if_neg hacc] at h
          subst h
          simp only [List.mem_cons]
          rw [ih bad0 hrest s]
          constructor
          · rintro (rfl | ⟨r0, hr0, hc0⟩)
            · exact ⟨r, Or.inl rfl, hcell, Bool.eq_false_iff.mpr hacc⟩
            · exact ⟨r0, Or.inr hr0, hc0⟩
          · rintro ⟨r0, hr0, hc0, hc1⟩
            rcases hr0 with rfl | hr0
            · rw [hcell] at hc0
              cases hc0
              exact Or.inl rfl
            · exact Or.inr ⟨r0, hr0, hc0, hc1⟩
    · cases h
    · cases h

/-- Membership description of the indicator-code errors of one successful
pillar-loop iteration: a code `s` is reported for pillar `p` exactly when the
iteration's pillar is `p`, some observation of that pillar carries `s`, and
`s` fails the prefix-family acceptance test. -/
theorem pillarErrors_ok_codes (df obs : DataFrame) (q : String) (rule : PillarRule)
    (es : List VError) (h : pillarErrors df obs q rule = .ok es)
    (p : String) (s : String) :
    (∃ codes, VError.pillarIndicators p codes ∈ es ∧ s ∈ codes) ↔
      (p = q ∧ ∃ r ∈ obs.rows.filter (fun r => Cell.eqStr (Row.get r "pillar") q),
        codeCell df r = Cell.str s ∧
        acceptedCode rule.valid_indicators s = false) := by
  simp only [pillarErrors] at h
  split at h
  · cases h
  · split at h
    · rename_i hempty
      cases h
      constructor
      · rintro ⟨codes, hmem, _⟩
        cases hmem
      · rintro ⟨rfl, r, hr, _⟩
        rw [List.isEmpty_iff] at hempty
        rw [hempty] at hr
        cases hr
    · rename_i hne
      split at h
      · cases h
      · rename_i bad hinv
        split at h
        · cases h
        · cases h
          rename_i hvt
          constructor
          · rintro ⟨codes, hmem, hs⟩
            rcases List.mem_append.mp hmem with hmem | hmem
            · by_cases hbad : bad.isEmpty
              · rw [if_pos hbad] at hmem
                cases hmem
              · rw [if_neg hbad] at hmem
                rcases List.mem_singleton.mp hmem with heq
                injection heq with hp hcodes
                subst hp
                subst hcodes
                rw [mem_dedupFirst] at hs
                exact ⟨rfl, (invalidCodes_ok_mem df rule.valid_indicators _ bad hinv s).mp hs⟩
            · exfalso
              by_cases hb2 : !(dedupFirst ((List.map (fun r => Row.get r "value_type")
                  (List.filter (fun r => Cell.eqStr (Row.get r "pillar") q) obs.rows)).filter
                    (fun c => !c.isna &&
                      !(rule.required_value_type.any (fun s => c == Cell.str s))))).isEmpty
                  && !rule.required_value_type.isEmpty
              · rw [if_pos hb2] at hmem
                rcases List.mem_singleton.mp hmem with heq
                cases heq
              · rw [if_neg hb2] at hmem
                cases hmem
          · rintro ⟨rfl, hex⟩
            have hsbad : s ∈ bad :=
              (invalidCodes_ok_mem df rule.valid_indicators _ bad hinv s).mpr hex
            have hbadne : bad.isEmpty = false := by
              cases hb : bad.isEmpty
              · rfl
              · rw [List.isEmpty_iff] at hb
                rw [hb] at hsbad
                cases hsbad
            refine ⟨dedupFirst bad, ?_, (mem_dedupFirst bad s).mpr hsbad⟩
            rw [hbadne]
            exact List.mem_append.mpr (Or.inl (by simp))

/-- Every error of one successful pillar-loop iteration is tagged with that
iteration's pillar, and the iteration only reports when the pillar has at
least one observation. -/
theorem pillarErrors_ok_tagged (df obs : DataFrame) (q : String) (rule : PillarRule)
    (es : List VError) (h : pillarErrors df obs q rule = .ok es) :
    ∀ e ∈ es, VError.pillarOf e = some q ∧
      obs.rows.filter (fun r => Cell.eqStr (Row.get r "pillar") q) ≠ [] := by
  simp only [pillarErrors] at h
  split at h
  · cases h
  · split at h
    · cases h
      intro e he
      cases he
    · rename_i hne
      split at h
      · cases h
      · rename_i bad hinv
        split at h
        · cases h
        · cases h
          intro e he
          have hnonempty : obs.rows.filter
              (fun r => Cell.eqStr (Row.get r "pillar") q) ≠ [] := by
            intro hcon
            rw [← List.isEmpty_iff] at hcon
            rw [hcon] at hne
            cases hne rfl
          refine ⟨?_, hnonempty⟩
          rcases List.mem_append.mp he with he | he
          · split at he
            · cases he
            · rcases List.mem_singleton.mp he with rfl
              rfl
          · split at he
            · rcases List.mem_singleton.mp he with rfl
              rfl
            · cases he

/-- Inversion of a successful `validate_pillar_rules` run into its four
pillar-loop iterations. -/
theorem validatePillarRules_ok_inv (df : DataFrame) (v : Bool) (errs : List VError)
    (h : validatePillarRules df = .ok (v, errs)) :
    ∃ e1 e2 e3 e4,
      pillarErrors df ⟨df.cols, df.rows.filter isObsRow⟩ "ACCESS" ruleACCESS = .ok e1 ∧
      pillarErrors df ⟨df.cols, df.rows.filter isObsRow⟩ "USAGE" ruleUSAGE = .ok e2 ∧
      pillarErrors df ⟨df.cols, df.rows.filter isObsRow⟩ "GENDER" ruleGENDER = .ok e3 ∧
      pillarErrors df ⟨df.cols, df.rows.filter isObsRow⟩ "AFFORDABILITY"
        ruleAFFORDABILITY = .ok e4 ∧
      errs = e1 ++ e2 ++ e3 ++ e4 := by
  simp only [validatePillarRules] at h
  split at h
  · cases h
  · split at h
    · cases h
    · rename_i e1 h1
      split at h
      · cases h
      · rename_i e2 h2
        split at h
        · cases h
        · rename_i e3 h3
          split at h
          · cases h
          · rename_i e4 h4
            injection h with h
            injection h with hv herrs
            exact ⟨e1, e2, e3, e4, h1, h2, h3, h4, herrs.symm⟩

/-- A cell compares string-equal to at most one string. -/
theorem Cell.eqStr_unique (c : Cell) (a b : String)
    (ha : Cell.eqStr c a = true) (hb : Cell.eqStr c b = true) : a = b := by
  cases c <;> simp [Cell.eqStr] at ha hb
  rw [← ha, ← hb]

/-- Dropping the QUALITY observations does not change any registered pillar's
slice of the observation rows. -/
theorem filter_remove_quality (l : List Row) (q : String) (hq : q ≠ "QUALITY") :
    ((l.filter (fun r =>
        !(isObsRow r && Cell.eqStr (Row.get r "pillar") "QUALITY"))).filter
      isObsRow).filter (fun r => Cell.eqStr (Row.get r "pillar") q) =
    (l.filter isObsRow).filter (fun r => Cell.eqStr (Row.get r "pillar") q) := by
  rw [List.filter_filter, List.filter_filter, List.filter_filter]
  apply List.filter_congr
  intro r _
  by_cases h1 : isObsRow r <;>
    by_cases h2 : Cell.eqStr (Row.get r "pillar") "QUALITY" <;>
    by_cases h3 : Cell.eqStr (Row.get r "pillar") q
  · exact absurd (Cell.eqStr_unique _ _ _ h2 h3) (fun he => hq he.symm)
  all_goals simp [h1, h2, h3]

/-- `invalidCodes` depends on the frame only through its columns. -/
theorem invalidCodes_congr (df1 df2 : DataFrame) (hcols : df1.cols = df2.cols)
    (inds : List String) :
    ∀ rows, invalidCodes df1 inds rows = invalidCodes df2 inds rows := by
  have hc : ∀ r, codeCell df1 r = codeCell df2 r := by
    intro r
    simp [codeCell, DataFrame.hasCol, hcols]
  intro rows
  induction rows with
  | nil => rfl
  | cons r rest ih =>
    rw [invalidCodes, invalidCodes, hc r, ih]

/-- One pillar-loop iteration depends only on the frames' columns and on the
pillar's slice of the observation rows. -/
theorem pillarErrors_congr (df1 obs1 df2 obs2 : DataFrame)
    (hcols : df1.cols = df2.cols) (hocols : obs1.cols = obs2.cols)
    (q : String) (rule : PillarRule)
    (hrows : obs1.rows.filter (fun r => Cell.eqStr (Row.get r "pillar") q) =
      obs2.rows.filter (fun r => Cell.eqStr (Row.get r "pillar") q)) :
    pillarErrors df1 obs1 q rule = pillarErrors df2 obs2 q rule := by
  have h1 : obs1.hasCol "pillar" = obs2.hasCol "pillar" := by
    simp [DataFrame.hasCol, hocols]
  have h2 : df1.hasCol "value_type" = df2.hasCol "value_type" := by
    simp [DataFrame.hasCol, hcols]
  simp only [pillarErrors, h1, h2, hrows, invalidCodes_congr df1 df2 hcols]

/-- The frame with its QUALITY observations removed. -/
def removeQualityObs (df : DataFrame) : DataFrame :=
  ⟨df.cols, df.rows.filter (fun r =>
    !(isObsRow r && Cell.eqStr (Row.get r "pillar") "QUALITY"))⟩

/-- Claim C8: every error reported by `validate_pillar_rules` is tagged with a
registered pillar — never QUALITY — that has at least one observation in the
table, and removing all QUALITY observations leaves the result unchanged (so
QUALITY observations are never checked, regardless of their indicator codes or
value types). -/
theorem validate_pillar_rules_quality_unchecked :
    (∀ (df : DataFrame) (v : Bool) (errs : List VError),
      validatePillarRules df = .ok (v, errs) → ∀ e ∈ errs,
        ∃ p, VError.pillarOf e = some p ∧ p ≠ "QUALITY" ∧
          (df.rows.filter isObsRow).filter
            (fun r => Cell.eqStr (Row.get r "pillar") p) ≠ []) ∧
    (∀ df : DataFrame,
      validatePillarRules (removeQualityObs df) = validatePillarRules df) := by
  constructor
  · intro df v errs h e he
    obtain ⟨e1, e2, e3, e4, h1, h2, h3, h4, herrs⟩ :=
      validatePillarRules_ok_inv df v errs h
    subst herrs
    rcases List.mem_append.mp he with he | he
    · rcases List.mem_append.mp he with he | he
      · rcases List.mem_append.mp he with he | he
        · have hres := pillarErrors_ok_tagged _ _ _ _ _ h1 e he
          exact ⟨"ACCESS", hres.1, by decide, hres.2⟩
        · have hres := pillarErrors_ok_tagged _ _ _ _ _ h2 e he
          exact ⟨"USAGE", hres.1, by decide, hres.2⟩
      · have hres := pillarErrors_ok_tagged _ _ _ _ _ h3 e he
        exact ⟨"GENDER", hres.1, by decide, hres.2⟩
    · have hres := pillarErrors_ok_tagged _ _ _ _ _ h4 e he
      exact ⟨"AFFORDABILITY", hres.1, by decide, hres.2⟩
  · intro df
    have hA := pillarErrors_congr (removeQualityObs df)
      ⟨(removeQualityObs df).cols, (removeQualityObs df).rows.filter isObsRow⟩
      df ⟨df.cols, df.rows.filter isObsRow⟩ rfl rfl "ACCESS" ruleACCESS
      (filter_remove_quality df.rows "ACCESS" (by decide))
    have hU := pillarErrors_congr (removeQualityObs df)
      ⟨(removeQualityObs df).cols, (removeQualityObs df).rows.filter isObsRow⟩
      df ⟨df.cols, df.rows.filter isObsRow⟩ rfl rfl "USAGE" ruleUSAGE
      (filter_remove_quality df.rows "USAGE" (by decide))
    have hG := pillarErrors_congr (removeQualityObs df)
      ⟨(removeQualityObs df).cols, (removeQualityObs df).rows.filter isObsRow⟩
      df ⟨df.cols, df.rows.filter isObsRow⟩ rfl rfl "GENDER" ruleGENDER
      (filter_remove_quality df.rows "GENDER" (by decide))
    have hF := pillarErrors_congr (removeQualityObs df)
      ⟨(removeQualityObs df).cols, (removeQualityObs df).rows.filter isObsRow⟩
      df ⟨df.cols, df.rows.filter isObsRow⟩ rfl rfl "AFFORDABILITY" ruleAFFORDABILITY
      (filter_remove_quality df.rows "AFFORDABILITY" (by decide))
    have hrt : (removeQualityObs df).hasCol "record_type" =
        df.hasCol "record_type" := rfl
    simp only [validatePillarRules, hrt, hA, hU, hG, hF]

/-- An ACCESS observation whose code `ACCX_FOO` starts with the registered
leading segment `ACC` but whose own leading segment `ACCX` matches no
registered leading segment. -/
def rowC5 : Row :=
  [("record_id", Cell.str "R1"), ("record_type", Cell.str "observation"),
   ("pillar", Cell.str "ACCESS"), ("indicator", Cell.str "x"),
   ("indicator_code", Cell.str "ACCX_FOO"), ("value_type", Cell.str "percentage"),
   ("observation_date", Cell.null), ("source_name", Cell.str "s"),
   ("confidence", Cell.str "high")]

/-- A frame holding only `rowC5`. -/
def dfC5 : DataFrame := ⟨REQUIRED_COLUMNS, [rowC5]⟩

/-- Claim C5 (counterexample): the code `ACCX_FOO` is accepted by
`validate_pillar_rules` (no error, valid result) although its leading segment
`ACCX` equals no registered ACCESS leading segment — the source tests
`code.startswith(seg)` on the whole code, not equality of leading segments. -/
theorem validate_pillar_rules_prefix_counterexample :
    validatePillarRules dfC5 = .ok (true, []) ∧
    Row.get rowC5 "record_type" = Cell.str "observation" ∧
    Row.get rowC5 "pillar" = Cell.str "ACCESS" ∧
    codeCell dfC5 rowC5 = Cell.str "ACCX_FOO" ∧
    ruleACCESS.valid_indicators.map leadSeg = ["ACC", "MOBILE", "BANK"] ∧
    leadSeg "ACCX_FOO" = "ACCX" ∧
    ¬ ("ACCX" ∈ ["ACC", "MOBILE", "BANK"]) := by
  decide

/-- Claim C5 (amended): in `validate_pillar_rules`, for every pillar with
registered rules, an observation's string indicator code is accepted exactly
when the whole code starts with the leading segment (text before the first
underscore) of at least one of that pillar's registered example indicator
codes; the codes failing this are reported as a set per pillar. -/
theorem validate_pillar_rules_prefix_family (df : DataFrame) (v : Bool)
    (errs : List VError) (h : validatePillarRules df = .ok (v, errs))
    (p : String) (rule : PillarRule) (hp : (p, rule) ∈ PILLAR_RULES) (s : String) :
    (∃ codes, VError.pillarIndicators p codes ∈ errs ∧ s ∈ codes) ↔
      (∃ r ∈ df.rows.filter isObsRow, Cell.eqStr (Row.get r "pillar") p ∧
        codeCell df r = Cell.str s ∧
        ¬ ∃ v0 ∈ rule.valid_indicators, strStarts s (leadSeg v0)) := by
  obtain ⟨e1, e2, e3, e4, h1, h2, h3, h4, herrs⟩ :=
    validatePillarRules_ok_inv df v errs h
  subst herrs
  have haccept : ∀ inds : List String,
      (acceptedCode inds s = false) ↔
        ¬ ∃ v0 ∈ inds, strStarts s (leadSeg v0) := by
    intro inds
    rw [acceptedCode, List.any_eq_false]
    simp
  have conv : ∀ (q : String) (inds : List String),
      (∃ r ∈ (df.rows.filter isObsRow).filter
          (fun r => Cell.eqStr (Row.get r "pillar") q),
        codeCell df r = Cell.str s ∧ acceptedCode inds s = false) ↔
      (∃ r ∈ df.rows.filter isObsRow, Cell.eqStr (Row.get r "pillar") q ∧
        codeCell df r = Cell.str s ∧
        ¬ ∃ v0 ∈ inds, strStarts s (leadSeg v0)) := by
    intro q inds
    constructor
    · rintro ⟨r, hr, hcode, hacc⟩
      obtain ⟨hrin, hpe⟩ := List.mem_filter.mp hr
      exact ⟨r, hrin, hpe, hcode, (haccept inds).mp hacc⟩
    · rintro ⟨r, hrin, hpe, hcode, hnacc⟩
      exact ⟨r, List.mem_filter.mpr ⟨hrin, hpe⟩, hcode, (haccept inds).mpr hnacc⟩
  have split4 : (∃ codes, VError.pillarIndicators p codes ∈ e1 ++ e2 ++ e3 ++ e4 ∧
      s ∈ codes) ↔
      ((∃ codes, VError.pillarIndicators p codes ∈ e1 ∧ s ∈ codes) ∨
       (∃ codes, VError.pillarIndicators p codes ∈ e2 ∧ s ∈ codes) ∨
       (∃ codes, VError.pillarIndicators p codes ∈ e3 ∧ s ∈ codes) ∨
       (∃ codes, VError.pillarIndicators p codes ∈ e4 ∧ s ∈ codes)) := by
    constructor
    · rintro ⟨codes, hm, hs⟩
      rcases List.mem_append.mp hm with hm | hm
      · rcases List.mem_append.mp hm with hm | hm
        · rcases List.mem_append.mp hm with hm | hm
          · exact Or.inl ⟨codes, hm, hs⟩
          · exact Or.inr (Or.inl ⟨codes, hm, hs⟩)
        · exact Or.inr (Or.inr (Or.inl ⟨codes, hm, hs⟩))
      · exact Or.inr (Or.inr (Or.inr ⟨codes, hm, hs⟩))
    · rintro (⟨codes, hm, hs⟩ | ⟨codes, hm, hs⟩ | ⟨codes, hm, hs⟩ | ⟨codes, hm, hs⟩)
      · exact ⟨codes, List.mem_append.mpr (Or.inl (List.mem_append.mpr
          (Or.inl (List.mem_append.mpr (Or.inl hm))))), hs⟩
      · exact ⟨codes, List.mem_append.mpr (Or.inl (List.mem_append.mpr
          (Or.inl (List.mem_append.mpr (Or.inr hm))))), hs⟩
      · exact ⟨codes, List.mem_append.mpr (Or.inl (List.mem_append.mpr
          (Or.inr hm))), hs⟩
      · exact ⟨codes, List.mem_append.mpr (Or.inr hm), hs⟩
  rw [split4, pillarErrors_ok_codes _ _ _ _ _ h1 p s,
    pillarErrors_ok_codes _ _ _ _ _ h2 p s,
    pillarErrors_ok_codes _ _ _ _ _ h3 p s,
    pillarErrors_ok_codes _ _ _ _ _ h4 p s]
  simp only [PILLAR_RULES, List.mem_cons, List.mem_singleton,
    List.not_mem_nil, or_false] at hp
  rcases hp with hp | hp | hp | hp <;>
    rw [Prod.mk.injEq] at hp <;> obtain ⟨rfl, rfl⟩ := hp
  · simp only [eq_false (by decide : ¬ ("ACCESS" : String) = "USAGE"),
      eq_false (by decide : ¬ ("ACCESS" : String) = "GENDER"),
      eq_false (by decide : ¬ ("ACCESS" : String) = "AFFORDABILITY"),
      eq_self_iff_true, true_and, false_and, or_false, false_or]
    exact conv "ACCESS" ruleACCESS.valid_indicators
  · simp only [eq_false (by decide : ¬ ("USAGE" : String) = "ACCESS"),
      eq_false (by decide : ¬ ("USAGE" : String) = "GENDER"),
      eq_false (by decide : ¬ ("USAGE" : String) = "AFFORDABILITY"),
      eq_self_iff_true, true_and, false_and, or_false, false_or]
    exact conv "USAGE" ruleUSAGE.valid_indicators
  · simp only [eq_false (by decide : ¬ ("GENDER" : String) = "ACCESS"),
      eq_false (by decide : ¬ ("GENDER" : String) = "USAGE"),
      eq_false (by decide : ¬ ("GENDER" : String) = "AFFORDABILITY"),
      eq_self_iff_true, true_and, false_and, or_false, false_or]
    exact conv "GENDER" ruleGENDER.valid_indicators
  · simp only [eq_false (by decide : ¬ ("AFFORDABILITY" : String) = "ACCESS"),
      eq_false (by decide : ¬ ("AFFORDABILITY" : String) = "USAGE"),
      eq_false (by decide : ¬ ("AFFORDABILITY" : String) = "GENDER"),
      eq_self_iff_true, true_and, false_and, or_false, false_or]
    exact conv "AFFORDABILITY" ruleAFFORDABILITY.valid_indicators

/-- An ACCESS observation with the unrecognized code `ZZZ_X` next to a QUALITY
observation with an arbitrary code and value type. -/
def dfC8 : DataFrame :=
  ⟨REQUIRED_COLUMNS,
   [[("record_id", Cell.str "R1"), ("record_type", Cell.str "observation"),
     ("pillar", Cell.str "ACCESS"), ("indicator", Cell.str "x"),
     ("indicator_code", Cell.str "ZZZ_X"), ("value_type", Cell.str "percentage"),
     ("observation_date", Cell.null), ("source_name", Cell.str "s"),
     ("confidence", Cell.str "high")],
    [("record_id", Cell.str "R2"), ("record_type", Cell.str "observation"),
     ("pillar", Cell.str "QUALITY"), ("indicator", Cell.str "y"),
     ("indicator_code", Cell.str "WHATEVER"), ("value_type", Cell.str "absolute"),
     ("observation_date", Cell.null), ("source_name", Cell.str "s"),
     ("confidence", Cell.str "low")]]⟩

/-- Claim C5 (witness): the amended characterization applied at a concrete
frame — the unrecognized ACCESS code `ZZZ_X` is reported. -/
theorem validate_pillar_rules_prefix_family_witness :
    ∃ codes, VError.pillarIndicators "ACCESS" codes ∈
      [VError.pillarIndicators "ACCESS" ["ZZZ_X"]] ∧ "ZZZ_X" ∈ codes :=
  (validate_pillar_rules_prefix_family dfC8 false
    [VError.pillarIndicators "ACCESS" ["ZZZ_X"]] (by decide) "ACCESS" ruleACCESS
    (by decide) "ZZZ_X").mpr (by decide)

/-- Claim C8 (witness): the main theorem applied at the concrete `dfC8` — the
single error reported there is about ACCESS (a registered, inhabited pillar),
while the QUALITY observation goes unchecked. -/
theorem validate_pillar_rules_quality_unchecked_witness :
    ∃ p, VError.pillarOf (VError.pillarIndicators "ACCESS" ["ZZZ_X"]) = some p ∧
      p ≠ "QUALITY" ∧
      (dfC8.rows.filter isObsRow).filter
        (fun r => Cell.eqStr (Row.get r "pillar") p) ≠ [] :=
  validate_pillar_rules_quality_unchecked.1 dfC8 false
    [VError.pillarIndicators "ACCESS" ["ZZZ_X"]] (by decide)
    (VError.pillarIndicators "ACCESS" ["ZZZ_X"]) (by decide)

/-- Insertion during the stable sort preserves membership. -/
theorem mem_insertRowBy (key : Row → Option ℚ) (r x : Row) :
    ∀ l, x ∈ insertRowBy key r l ↔ x = r ∨ x ∈ l := by
  intro l
  induction l with
  | nil => simp [insertRowBy]
  | cons y ys ih =>
    rw [insertRowBy]
    split
    · simp only [List.mem_cons, ih]
      tauto
    · simp only [List.mem_cons]

/-- The stable sort preserves membership. -/
theorem mem_sortRowsBy (key : Row → Option ℚ) (l : List Row) (x : Row) :
    x ∈ sortRowsBy key l ↔ x ∈ l := by
  induction l with
  | nil => simp [sortRowsBy]
  | cons y ys ih =>
    rw [sortRowsBy, mem_insertRowBy]
    simp only [List.mem_cons, ih]

/-- Membership in the inner event loop of one observation. -/
theorem mem_obsCorrs (ev : DataFrame) (od : Date) (vcell : Cell) (lag : Nat)
    (c : Corr) :
    c ∈ obsCorrs ev od vcell lag ↔
      ∃ e ∈ ev.rows, ∃ ed, Row.get e "event_date" = Cell.date ed ∧
        rataDie (subMonths od lag) ≤ rataDie ed ∧ rataDie ed ≤ rataDie od ∧
        c = ⟨(if ev.hasCol "indicator" then Row.get e "indicator"
              else Cell.str "Unknown"), ed, od,
             round1 (((rataDie od - rataDie ed : Int) : ℚ) / 30), vcell⟩ := by
  rw [obsCorrs, List.mem_filterMap]
  constructor
  · rintro ⟨e, he, hf⟩
    split at hf
    · rename_i ed hedc
      split at hf
      · rename_i hw
        exact ⟨e, he, ed, hedc, hw.1, hw.2, (Option.some_inj.mp hf).symm⟩
      · cases hf
    · cases hf
  · rintro ⟨e, he, ed, hedc, hw1, hw2, rfl⟩
    refine ⟨e, he, ?_⟩
    rw [hedc]
    simp [hw1, hw2]

/-- Membership in the per-observation correlations. -/
theorem mem_rowCorrs (obs ev : DataFrame) (lag : Nat) (r : Row) (c : Corr)
    (hvn : obs.hasCol "value_numeric") :
    c ∈ rowCorrs obs ev lag r ↔
      ∃ od, Row.get r "observation_date" = Cell.date od ∧
        ∃ e ∈ ev.rows, ∃ ed, Row.get e "event_date" = Cell.date ed ∧
          rataDie (subMonths od lag) ≤ rataDie ed ∧ rataDie ed ≤ rataDie od ∧
          c = ⟨(if ev.hasCol "indicator" then Row.get e "indicator"
                else Cell.str "Unknown"), ed, od,
               round1 (((rataDie od - rataDie ed : Int) : ℚ) / 30),
               Row.get r "value_numeric"⟩ := by
  rw [rowCorrs]
  cases hodc : Row.get r "observation_date"
  · simp [hodc]
  · simp [hodc]
  · simp [hodc]
  · rename_i od
    simp only [hodc]
    rw [if_pos hvn, mem_obsCorrs]
    constructor
    · rintro ⟨e, he, ed, hedc, hw1, hw2, rfl⟩
      exact ⟨od, rfl, e, he, ed, hedc, hw1, hw2, rfl⟩
    · rintro ⟨od2, hod2, e, he, ed, hedc, hw1, hw2, rfl⟩
      injection hod2 with hod2
      subst hod2
      exact ⟨e, he, ed, hedc, hw1, hw2, rfl⟩

/-- The observation of indicator `X` dated 2021-12-01 with value 30. -/
def obsRowC3 : Row :=
  [("indicator_code", Cell.str "X"), ("year", Cell.num 2021),
   ("value_numeric", Cell.num 30),
   ("observation_date", Cell.date ⟨2021, 12, 1⟩)]

/-- Observations frame holding only `obsRowC3`. -/
def obsC3 : DataFrame :=
  ⟨["indicator_code", "year", "value_numeric", "observation_date"], [obsRowC3]⟩

/-- Events frame with one event dated 2021-07-01 (inside the 6-month window
before 2021-12-01) and one dated 2021-01-01 (outside it). -/
def evC3 : DataFrame :=
  ⟨["event_date", "indicator"],
   [[("event_date", Cell.date ⟨2021, 7, 1⟩), ("indicator", Cell.str "E1")],
    [("event_date", Cell.date ⟨2021, 1, 1⟩), ("indicator", Cell.str "E2")]]⟩

/-- Claim C3: for every observation of the given indicator with a known
(timestamp) date, `find_event_correlations` includes an event exactly when the
event's date falls in the closed window `[obs_date - lag_months, obs_date]`,
each included row carrying the event label, both dates, the lag in months
(day-difference over 30, rounded to one decimal) and the observation's value;
concretely, with `lag_months = 6`, one observation dated 2021-12-01 and events
dated 2021-07-01 and 2021-01-01 yield exactly one row — for the July event —
with `lag_months = 5.1 ≈ 5.0`, the January event being excluded. -/
theorem find_event_correlations_spec :
    (∀ (obs ev : DataFrame) (code : String) (lag : Nat),
      ev.rows ≠ [] →
      obs.hasCol "observation_date" → ev.hasCol "event_date" →
      obs.hasCol "indicator_code" → obs.hasCol "value_numeric" →
      ∃ l, find_event_correlations obs (some ev) code lag = .ok l ∧
        ∀ c, c ∈ l ↔
          ∃ r ∈ obs.rows, Cell.eqStr (Row.get r "indicator_code") code ∧
            ∃ od, Row.get r "observation_date" = Cell.date od ∧
            ∃ e ∈ ev.rows, ∃ ed, Row.get e "event_date" = Cell.date ed ∧
              rataDie (subMonths od lag) ≤ rataDie ed ∧
              rataDie ed ≤ rataDie od ∧
              c = ⟨(if ev.hasCol "indicator" then Row.get e "indicator"
                    else Cell.str "Unknown"), ed, od,
                   round1 (((rataDie od - rataDie ed : Int) : ℚ) / 30),
                   Row.get r "value_numeric"⟩) ∧
    find_event_correlations obsC3 (some evC3) "X" 6 =
      .ok [⟨Cell.str "E1", ⟨2021, 7, 1⟩, ⟨2021, 12, 1⟩,
           round1 (((rataDie ⟨2021, 12, 1⟩ - rataDie ⟨2021, 7, 1⟩ : Int) : ℚ) / 30),
           Cell.num 30⟩] ∧
    round1 (((rataDie ⟨2021, 12, 1⟩ - rataDie ⟨2021, 7, 1⟩ : Int) : ℚ) / 30) =
      Rat.mk' 51 10 ∧
    |(Rat.mk' 51 10 : ℚ) - 5| ≤ 1 / 5 := by
  refine ⟨?_, ?_, ?_, ?_⟩
  · intro obs ev code lag hne hod hed hic hvn
    have hne' : ev.rows.isEmpty = false := by
      simpa [List.isEmpty_iff] using hne
    by_cases hdata : (sortRowsBy obsDateKey (obs.rows.filter
        (fun r => Cell.eqStr (Row.get r "indicator_code") code))).isEmpty
    · refine ⟨[], ?_, ?_⟩
      · simp [find_event_correlations, hne', hod, hed, hic, hdata]
      · intro c
        simp only [List.not_mem_nil, false_iff]
        rintro ⟨r, hr, hcode, -⟩
        have hmem : r ∈ sortRowsBy obsDateKey (obs.rows.filter
            (fun r => Cell.eqStr (Row.get r "indicator_code") code)) :=
          (mem_sortRowsBy _ _ _).mpr (List.mem_filter.mpr ⟨hr, hcode⟩)
        rw [List.isEmpty_iff] at hdata
        rw [hdata] at hmem
        cases hmem
    · refine ⟨(sortRowsBy obsDateKey (obs.rows.filter
          (fun r => Cell.eqStr (Row.get r "indicator_code") code))).flatMap
          (rowCorrs obs ev lag), ?_, ?_⟩
      · simp [find_event_correlations, hne', hod, hed, hic, hdata]
      · intro c
        rw [List.mem_flatMap]
        constructor
        · rintro ⟨r, hr, hc⟩
          obtain ⟨hrin, hcode⟩ :=
            List.mem_filter.mp ((mem_sortRowsBy _ _ _).mp hr)
          obtain ⟨od, hodc, e, he, ed, hedc, hw1, hw2, rfl⟩ :=
            (mem_rowCorrs obs ev lag r c hvn).mp hc
          exact ⟨r, hrin, hcode, od, hodc, e, he, ed, hedc, hw1, hw2, rfl⟩
        · rintro ⟨r, hrin, hcode, od, hodc, e, he, ed, hedc, hw1, hw2, rfl⟩
          refine ⟨r, (mem_sortRowsBy _ _ _).mpr
            (List.mem_filter.mpr ⟨hrin, hcode⟩), ?_⟩
          exact (mem_rowCorrs obs ev lag r _ hvn).mpr
            ⟨od, hodc, e, he, ed, hedc, hw1, hw2, rfl⟩
  · rfl
  · have h153 : (rataDie ⟨2021, 12, 1⟩ - rataDie ⟨2021, 7, 1⟩ : Int) = 153 := by
      decide
    rw [h153, round1]
    rw [show ((153 : Int) : ℚ) / 30 * 10 = ((51 : ℤ) : ℚ) from by
      push_cast
      norm_num]
    rw [round_intCast]
    rw [← Rat.num_div_den (Rat.mk' 51 10)]
    norm_num
  · rw [show (Rat.mk' 51 10 : ℚ) - 5 = 1 / 10 from by
      rw [← Rat.num_div_den (Rat.mk' 51 10)]
      norm_num]
    rw [abs_of_nonneg (by norm_num : (0 : ℚ) ≤ 1 / 10)]
    norm_num

/-- Claim C3 (witness): the window characterization applied at the concrete
frames. -/
theorem find_event_correlations_spec_witness :
    ∃ l, find_event_correlations obsC3 (some evC3) "X" 6 = .ok l ∧
      ∀ c, c ∈ l ↔
        ∃ r ∈ obsC3.rows, Cell.eqStr (Row.get r "indicator_code") "X" ∧
          ∃ od, Row.get r "observation_date" = Cell.date od ∧
          ∃ e ∈ evC3.rows, ∃ ed, Row.get e "event_date" = Cell.date ed ∧
            rataDie (subMonths od 6) ≤ rataDie ed ∧
            rataDie ed ≤ rataDie od ∧
            c = ⟨(if evC3.hasCol "indicator" then Row.get e "indicator"
                  else Cell.str "Unknown"), ed, od,
                 round1 (((rataDie od - rataDie ed : Int) : ℚ) / 30),
                 Row.get r "value_numeric"⟩ :=
  find_event_correlations_spec.1 obsC3 evC3 "X" 6 (by decide) (by decide)
    (by decide) (by decide) (by decide)

/-- Claim C9: the validators and every embedded analyzer operation leave the
input frames unchanged — each method returns the post-state of the table it
was given, and that post-state equals the input.  The only object state the
validators mutate is their `validation_log`: the schema check appends one
entry except on the empty-frame early return, the other two checks always
append one, so `validate_all` appends three entries on a non-empty frame and
two on an empty one. -/
theorem analysis_no_mutation :
    (∀ (log : List LogEntry) (df : DataFrame) (r : Bool × List VError)
        (log2 : List LogEntry) (df2 : DataFrame),
      validate_schema_m log df = .ok (r, log2, df2) →
        df2 = df ∧ (df.rows.isEmpty = true → log2 = log) ∧
          (df.rows.isEmpty = false → ∃ en, log2 = log ++ [en])) ∧
    (∀ (log : List LogEntry) (df : DataFrame) (r : Bool × List VError)
        (log2 : List LogEntry) (df2 : DataFrame),
      validate_pillar_rules_m log df = .ok (r, log2, df2) →
        df2 = df ∧ ∃ en, log2 = log ++ [en]) ∧
    (∀ (log : List LogEntry) (df : DataFrame) (r : Bool × List VError)
        (log2 : List LogEntry) (df2 : DataFrame),
      validate_record_types_m log df = .ok (r, log2, df2) →
        df2 = df ∧ ∃ en, log2 = log ++ [en]) ∧
    (∀ (log : List LogEntry) (df : DataFrame) (r : Bool × ValidationReport)
        (log2 : List LogEntry) (df2 : DataFrame),
      validate_all_m log df = .ok (r, log2, df2) →
        df2 = df ∧
          (df.rows.isEmpty = true → ∃ b c, log2 = log ++ [b, c]) ∧
          (df.rows.isEmpty = false → ∃ a b c, log2 = log ++ [a, b, c])) ∧
    (∀ (a : Analyzer) (code : String), (a.growth_rate_m code).2 = a) ∧
    (∀ (a : Analyzer) (code : String) (t : ℚ), (a.trend_changes_m code t).2 = a) ∧
    (∀ a : Analyzer, a.gender_gap_m.2 = a) ∧
    (∀ a : Analyzer, a.compare_pillars_m.2 = a) ∧
    (∀ (a : Analyzer) (code : String) (lag : Nat),
      (a.event_correlations_m code lag).2 = a) := by
  have hS : ∀ (log : List LogEntry) (df : DataFrame) (r : Bool × List VError)
      (log2 : List LogEntry) (df2 : DataFrame),
      validate_schema_m log df = .ok (r, log2, df2) →
        df2 = df ∧ (df.rows.isEmpty = true → log2 = log) ∧
          (df.rows.isEmpty = false → ∃ en, log2 = log ++ [en]) := by
    intro log df r log2 df2 h
    cases hx : validateSchema df <;>
      simp only [validate_schema_m, hx, Except.map] at h
    · cases h
    · injection h with h
      injection h with h1 h
      injection h with h2 h3
      refine ⟨h3.symm, fun hemp => ?_, fun hne => ?_⟩
      · rw [← h2, if_pos hemp]
      · rw [← h2, if_neg (by simp [hne])]
        exact ⟨_, rfl⟩
  have hP : ∀ (log : List LogEntry) (df : DataFrame) (r : Bool × List VError)
      (log2 : List LogEntry) (df2 : DataFrame),
      validate_pillar_rules_m log df = .ok (r, log2, df2) →
        df2 = df ∧ ∃ en, log2 = log ++ [en] := by
    intro log df r log2 df2 h
    cases hx : validatePillarRules df <;>
      simp only [validate_pillar_rules_m, hx, Except.map] at h
    · cases h
    · injection h with h
      injection h with h1 h
      injection h with h2 h3
      exact ⟨h3.symm, _, h2.symm⟩
  have hR : ∀ (log : List LogEntry) (df : DataFrame) (r : Bool × List VError)
      (log2 : List LogEntry) (df2 : DataFrame),
      validate_record_types_m log df = .ok (r, log2, df2) →
        df2 = df ∧ ∃ en, log2 = log ++ [en] := by
    intro log df r log2 df2 h
    cases hx : validateRecordTypes df <;>
      simp only [validate_record_types_m, hx, Except.map] at h
    · cases h
    · injection h with h
      injection h with h1 h
      injection h with h2 h3
      exact ⟨h3.symm, _, h2.symm⟩
  refine ⟨hS, hP, hR, ?_, fun a c => rfl, fun a c t => rfl, fun a => rfl,
    fun a => rfl, fun a c l => rfl⟩
  intro log df r log2 df2 h
  rw [validate_all_m] at h
  split at h
  · cases h
  · rename_i s log1 df1 heq1
    split at h
    · cases h
    · rename_i p logB dfB heq2
      split at h
      · cases h
      · rename_i t logC dfC heq3
        injection h with h
        injection h with hr h
        injection h with hlog hdf
        obtain ⟨hdf1, hlog1emp, hlog1ne⟩ := hS _ _ _ _ _ heq1
        obtain ⟨hdfB, en2, hlogB⟩ := hP _ _ _ _ _ heq2
        obtain ⟨hdfC, en3, hlogC⟩ := hR _ _ _ _ _ heq3
        subst hdf hlog
        subst hdf1
        refine ⟨by rw [hdfC, hdfB], fun hemp => ?_, fun hne => ?_⟩
        · refine ⟨en2, en3, ?_⟩
          rw [hlogC, hlogB, hlog1emp hemp]
          simp
        · obtain ⟨en1, hlog1⟩ := hlog1ne hne
          refine ⟨en1, en2, en3, ?_⟩
          rw [hlogC, hlogB, hlog1]
          simp

/-- A well-formed single-observation frame that passes all three validators. -/
def dfC9 : DataFrame :=
  ⟨REQUIRED_COLUMNS ++ ["value_numeric", "value_text", "category"],
   [[("record_id", Cell.str "R1"), ("record_type", Cell.str "observation"),
     ("pillar", Cell.str "ACCESS"), ("indicator", Cell.str "x"),
     ("indicator_code", Cell.str "ACC_OWNERSHIP"),
     ("value_type", Cell.str "percentage"), ("observation_date", Cell.null),
     ("source_name", Cell.str "s"), ("confidence", Cell.str "high"),
     ("value_numeric", Cell.num 30), ("value_text", Cell.null),
     ("category", Cell.null)]]⟩

/-- Claim C9 (witness): the schema check on a concrete empty frame returns
the frame unchanged and logs nothing, and `validate_all` on a concrete
non-empty frame returns the very frame it was given while appending exactly
three log entries. -/
theorem analysis_no_mutation_witness :
    (dfAllColsNoRows = dfAllColsNoRows ∧
      (dfAllColsNoRows.rows.isEmpty = true → ([] : List LogEntry) = []) ∧
      (dfAllColsNoRows.rows.isEmpty = false →
        ∃ en, ([] : List LogEntry) = [] ++ [en])) ∧
    (dfC9 = dfC9 ∧
      (dfC9.rows.isEmpty = true →
        ∃ b c, ([⟨"schema", true, []⟩, ⟨"pillar_rules", true, []⟩,
          ⟨"record_types", true, []⟩] : List LogEntry) = [] ++ [b, c]) ∧
      (dfC9.rows.isEmpty = false →
        ∃ a b c, ([⟨"schema", true, []⟩, ⟨"pillar_rules", true, []⟩,
          ⟨"record_types", true, []⟩] : List LogEntry) = [] ++ [a, b, c])) :=
  ⟨analysis_no_mutation.1 [] dfAllColsNoRows (false, [VError.emptyFrame]) []
     dfAllColsNoRows (by decide),
   analysis_no_mutation.2.2.2.1 [] dfC9
     (true, ⟨1, true, true, [], true, [], true, []⟩)
     [⟨"schema", true, []⟩, ⟨"pillar_rules", true, []⟩, ⟨"record_types", true, []⟩]
     dfC9 (by decide)⟩
